import Mathlib

/-!
Verification of the MCP task-server dispatch core.

This file shallowly embeds the tool/resource dispatch engine of the
repository (src/src/mcp_server.py together with the TaskDatabase layer of
src/src/database.py) and proves the specification claims about it.

Modelling conventions:
* Python's untyped values (tool arguments, database rows) are the inductive
  `Value`; a database row is an association list of field name to `Value`.
* The storage collaborator (the `query`/`execute` interface of the spec,
  realized by `conn.fetch` / `conn.execute` through the pool) is the
  structure `Backend`: an oracle that may raise (`Except.error`, carrying
  the Python exception text).  Every invocation of the collaborator is
  recorded as a `DbCall`, so "the storage backend is called exactly once
  with X" is the statement that the recorded call list is `[X]`.
* Python exceptions are `Except.error msg` with `msg = str(e)`; a `KeyError`
  on `arguments["k"]` carries the Python rendering `'k'`.
* `handle_call_tool` / `handle_read_resource` are total functions returning
  the final response text plus the call log, mirroring the catch-all
  `except Exception` blocks of the source.
-/

/-- A Python value as it appears in tool arguments and database rows. -/
inductive Value where
  | vNull
  | vBool (b : Bool)
  | vInt (n : Int)
  | vStr (s : String)
  | vArr (xs : List Value)
  | vObj (fs : List (String × Value))
deriving Repr

/-- A database row: mapping from column name to value (Python dict). -/
abbrev Row := List (String × Value)

/-- Tool arguments: mapping from field name to value (Python dict). -/
abbrev Args := List (String × Value)

/-- Python `d.get(k)`: first binding of `k`, if any. -/
def lookupKey (m : List (String × Value)) (k : String) : Option Value :=
  match m with
  | [] => none
  | (k', v) :: t => if k' = k then some v else lookupKey t k

/-- Python `d[k]`: raises `KeyError` (whose `str` is `'k'`) when absent. -/
def getItemKey (m : List (String × Value)) (k : String) : Except String Value :=
  match lookupKey m k with
  | some v => .ok v
  | none => .error ("'" ++ k ++ "'")

/-- Python `d.get(k, default)`. -/
def getKeyD (m : List (String × Value)) (k : String) (d : Value) : Value :=
  (lookupKey m k).getD d

/-- Python truthiness of a value (`if v:`). -/
def pyTruthy : Value → Bool
  | .vNull => false
  | .vBool b => b
  | .vInt n => n != 0
  | .vStr s => !s.isEmpty
  | .vArr xs => !xs.isEmpty
  | .vObj fs => !fs.isEmpty

/-- The Python type name of a value, for `AttributeError` texts. -/
def pyTypeName : Value → String
  | .vNull => "NoneType"
  | .vBool _ => "bool"
  | .vInt _ => "int"
  | .vStr _ => "str"
  | .vArr _ => "list"
  | .vObj _ => "dict"

mutual
/-- Python `str(v)` as used in f-string interpolation.  Containers render in
`repr` form (element quoting simplified: no escaping inside `repr` quotes,
which no claim depends on). -/
def pyStrV : Value → String
  | .vNull => "None"
  | .vBool b => if b then "True" else "False"
  | .vInt n => toString n
  | .vStr s => s
  | .vArr xs => "[" ++ reprItems xs ++ "]"
  | .vObj fs => "\x7b" ++ reprFields fs ++ "\x7d"

/-- `repr` of a list's elements, comma separated. -/
def reprItems : List Value → String
  | [] => ""
  | [x] => pyReprV x
  | x :: xs => pyReprV x ++ ", " ++ reprItems xs

/-- `repr` of a dict's entries, comma separated. -/
def reprFields : List (String × Value) → String
  | [] => ""
  | [(k, v)] => "'" ++ k ++ "': " ++ pyReprV v
  | (k, v) :: fs => "'" ++ k ++ "': " ++ pyReprV v ++ ", " ++ reprFields fs

/-- Python `repr(v)` (strings quoted). -/
def pyReprV : Value → String
  | .vNull => "None"
  | .vBool b => if b then "True" else "False"
  | .vInt n => toString n
  | .vStr s => "'" ++ s ++ "'"
  | .vArr xs => "[" ++ reprItems xs ++ "]"
  | .vObj fs => "\x7b" ++ reprFields fs ++ "\x7d"
end

/-- Characters stripped by Python `str.strip()` (the ASCII whitespace set). -/
def pyIsSpace (c : Char) : Bool :=
  c = ' ' || c = '\t' || c = '\n' || c = '\r' || c = '\x0b' || c = '\x0c'

/-- Python `s.strip()`. -/
def pyStrip (s : String) : String :=
  String.mk (((s.data.dropWhile pyIsSpace).reverse.dropWhile pyIsSpace).reverse)

/-- Python `s.upper()` (ASCII case mapping). -/
def pyUpper (s : String) : String :=
  String.mk (s.data.map Char.toUpper)

/-- Python `s.startswith(p)`. -/
def pyStartsWith (s p : String) : Bool :=
  p.data.isPrefixOf s.data

/-- Python `v.strip()` on an argument value: only defined for `str`. -/
def pyStripMethod : Value → Except String String
  | .vStr s => .ok (pyStrip s)
  | v => .error ("'" ++ pyTypeName v ++ "' object has no attribute 'strip'")

/-- `pat.isPrefixOf l` at some suffix of `l`: core of Python `pat in s`. -/
def containsL (p : List Char) : List Char → Bool
  | [] => p.isPrefixOf ([] : List Char)
  | c :: t => p.isPrefixOf (c :: t) || containsL p t

/-- Python `pat in s` (substring containment). -/
def strContains (s pat : String) : Bool :=
  containsL pat.data s.data

/-- All elements of a list joined by `sep`, requiring `str` elements
(Python `sep.join(list)`). -/
def joinStrs (sep : String) : List Value → Except String String
  | [] => .ok ""
  | [.vStr s] => .ok s
  | .vStr s :: x :: xs =>
    match joinStrs sep (x :: xs) with
    | .ok r => .ok (s ++ sep ++ r)
    | .error e => .error e
  | _ => .error "sequence item: expected str instance"

/-- Python `sep.join(v)`: joins a list of strings, or the characters of a
string; other values are not iterable or yield non-`str` items. -/
def pyJoin (sep : String) : Value → Except String String
  | .vArr xs => joinStrs sep xs
  | .vStr s => .ok (String.intercalate sep (s.data.map fun c => String.mk [c]))
  | v => .error ("can only join an iterable, not " ++ pyTypeName v)

/-! ### The storage collaborator and the TaskDatabase layer (src/src/database.py) -/

/-- One recorded invocation of the storage collaborator: a row-returning
query (`conn.fetch`) or a status-returning command (`conn.execute`). -/
inductive DbCall where
  | fetch (sql : String) (params : List Value)
  | exec (sql : String) (params : List Value)
deriving Repr

/-- The storage backend oracle: the async query/command interface of the
spec.  A call either returns (rows, or a status tag such as `"UPDATE 1"`)
or raises, carrying the exception text. -/
structure Backend where
  fetch : String → List Value → Except String (List Row)
  exec : String → List Value → Except String String

/-- `TaskDatabase.execute_query`: runs the query on the collaborator and
returns its rows, re-raising any failure; the invocation is recorded. -/
def db_execute_query (b : Backend) (sql : String) (params : List Value) :
    Except String (List Row) × List DbCall :=
  (b.fetch sql params, [.fetch sql params])

/-- `TaskDatabase.execute_command`: runs the command and returns the status
tag, re-raising any failure; the invocation is recorded. -/
def db_execute_command (b : Backend) (sql : String) (params : List Value) :
    Except String String × List DbCall :=
  (b.exec sql params, [.exec sql params])

/-- The SQL text of `get_all_tasks` (verbatim, including indentation). -/
def get_all_tasks_sql : String :=
  "\n        SELECT \n            t.*,\n            COALESCE(\n                ARRAY_AGG(c.name) FILTER (WHERE c.name IS NOT NULL), \n                '\x7b\x7d'\n            ) as categories\n        FROM tasks t\n        LEFT JOIN task_categories tc ON t.id = tc.task_id\n        LEFT JOIN categories c ON tc.category_id = c.id\n        GROUP BY t.id\n        ORDER BY t.created_at DESC\n        "

/-- The SQL text of `get_task_by_id`. -/
def get_task_by_id_sql : String :=
  "\n        SELECT \n            t.*,\n            COALESCE(\n                ARRAY_AGG(c.name) FILTER (WHERE c.name IS NOT NULL), \n                '\x7b\x7d'\n            ) as categories\n        FROM tasks t\n        LEFT JOIN task_categories tc ON t.id = tc.task_id\n        LEFT JOIN categories c ON tc.category_id = c.id\n        WHERE t.id = $1\n        GROUP BY t.id\n        "

/-- The SQL text of `get_tasks_by_status`. -/
def get_tasks_by_status_sql : String :=
  "\n        SELECT \n            t.*,\n            COALESCE(\n                ARRAY_AGG(c.name) FILTER (WHERE c.name IS NOT NULL), \n                '\x7b\x7d'\n            ) as categories\n        FROM tasks t\n        LEFT JOIN task_categories tc ON t.id = tc.task_id\n        LEFT JOIN categories c ON tc.category_id = c.id\n        WHERE t.status = $1\n        GROUP BY t.id\n        ORDER BY t.priority DESC, t.created_at DESC\n        "

/-- The SQL text of `create_task`. -/
def create_task_sql : String :=
  "\n        INSERT INTO tasks (title, description, priority, assigned_to, due_date, tags)\n        VALUES ($1, $2, $3, $4, $5, $6)\n        RETURNING *\n        "

/-- The SQL text of `update_task_status`. -/
def update_task_status_sql : String := "UPDATE tasks SET status = $2 WHERE id = $1"

/-- The SQL text of `delete_task`. -/
def delete_task_sql : String := "DELETE FROM tasks WHERE id = $1"

/-- The SQL text of `get_task_comments`. -/
def get_task_comments_sql : String :=
  "\n        SELECT * FROM task_comments \n        WHERE task_id = $1 \n        ORDER BY created_at ASC\n        "

/-- The SQL text of `add_task_comment`. -/
def add_task_comment_sql : String :=
  "\n        INSERT INTO task_comments (task_id, comment, author)\n        VALUES ($1, $2, $3)\n        RETURNING *\n        "

/-- The SQL text of `get_all_categories`. -/
def get_all_categories_sql : String := "SELECT * FROM categories ORDER BY name"

/-- The SQL text of `get_database_schema`. -/
def get_database_schema_sql : String :=
  "\n        SELECT \n            table_name,\n            column_name,\n            data_type,\n            is_nullable,\n            column_default\n        FROM information_schema.columns \n        WHERE table_schema = 'public' \n        ORDER BY table_name, ordinal_position\n        "

/-- `TaskDatabase.get_all_tasks`. -/
def db_get_all_tasks (b : Backend) : Except String (List Row) × List DbCall :=
  db_execute_query b get_all_tasks_sql []

/-- `TaskDatabase.get_task_by_id`: `results[0] if results else None`. -/
def db_get_task_by_id (b : Backend) (task_id : Value) :
    Except String (Option Row) × List DbCall :=
  match db_execute_query b get_task_by_id_sql [task_id] with
  | (.error e, cs) => (.error e, cs)
  | (.ok results, cs) => (.ok results.head?, cs)

/-- `TaskDatabase.get_tasks_by_status`. -/
def db_get_tasks_by_status (b : Backend) (status : Value) :
    Except String (List Row) × List DbCall :=
  db_execute_query b get_tasks_by_status_sql [status]

/-- `TaskDatabase.create_task`: `tags = tags or []`, then the INSERT;
returns `results[0] if results else None`. -/
def db_create_task (b : Backend) (title description priority assigned_to
    due_date tags : Value) : Except String (Option Row) × List DbCall :=
  let tags' := if pyTruthy tags then tags else .vArr []
  match db_execute_query b create_task_sql
      [title, description, priority, assigned_to, due_date, tags'] with
  | (.error e, cs) => (.error e, cs)
  | (.ok results, cs) => (.ok results.head?, cs)

/-- `TaskDatabase.update_task_status`: true iff the status tag contains
`"UPDATE 1"` as a substring. -/
def db_update_task_status (b : Backend) (task_id status : Value) :
    Except String Bool × List DbCall :=
  match db_execute_command b update_task_status_sql [task_id, status] with
  | (.error e, cs) => (.error e, cs)
  | (.ok result, cs) => (.ok (strContains result "UPDATE 1"), cs)

/-- `TaskDatabase.delete_task`: true iff the status tag contains
`"DELETE 1"` as a substring. -/
def db_delete_task (b : Backend) (task_id : Value) :
    Except String Bool × List DbCall :=
  match db_execute_command b delete_task_sql [task_id] with
  | (.error e, cs) => (.error e, cs)
  | (.ok result, cs) => (.ok (strContains result "DELETE 1"), cs)

/-- `TaskDatabase.get_task_comments`. -/
def db_get_task_comments (b : Backend) (task_id : Value) :
    Except String (List Row) × List DbCall :=
  db_execute_query b get_task_comments_sql [task_id]

/-- `TaskDatabase.add_task_comment`. -/
def db_add_task_comment (b : Backend) (task_id comment author : Value) :
    Except String (Option Row) × List DbCall :=
  match db_execute_query b add_task_comment_sql [task_id, comment, author] with
  | (.error e, cs) => (.error e, cs)
  | (.ok results, cs) => (.ok results.head?, cs)

/-- `TaskDatabase.get_all_categories`. -/
def db_get_all_categories (b : Backend) : Except String (List Row) × List DbCall :=
  db_execute_query b get_all_categories_sql []

mutual
/-- Structural equality of values (Python `==` on the JSON-like fragment,
used for dict keys and the `== 'YES'` comparison). -/
def valueEq : Value → Value → Bool
  | .vNull, .vNull => true
  | .vBool a, .vBool b => a == b
  | .vInt a, .vInt b => a == b
  | .vStr a, .vStr b => a == b
  | .vArr a, .vArr b => valueListEq a b
  | .vObj a, .vObj b => valueFieldsEq a b
  | _, _ => false

def valueListEq : List Value → List Value → Bool
  | [], [] => true
  | a :: as, b :: bs => valueEq a b && valueListEq as bs
  | _, _ => false

def valueFieldsEq : List (String × Value) → List (String × Value) → Bool
  | [], [] => true
  | (k, a) :: as, (l, b) :: bs => k == l && valueEq a b && valueFieldsEq as bs
  | _, _ => false
end

/-- Append `x` to the list bound to key `k`, inserting the key at the end if
absent (Python `schema[table] = []` + `schema[table].append(...)` on an
insertion-ordered dict). -/
def assocAppend (m : List (Value × List Row)) (k : Value) (x : Row) :
    List (Value × List Row) :=
  match m with
  | [] => [(k, [x])]
  | (k', xs) :: t =>
    if valueEq k' k then (k', xs ++ [x]) :: t else (k', xs) :: assocAppend t k x

/-- The grouping loop of `get_database_schema`: one column-descriptor row is
appended per input row, keyed by its table name. -/
def buildSchema : List Row → List (Value × List Row) →
    Except String (List (Value × List Row))
  | [], acc => .ok acc
  | col :: rest, acc =>
    match getItemKey col "table_name" with
    | .error e => .error e
    | .ok table =>
      match getItemKey col "column_name" with
      | .error e => .error e
      | .ok cname =>
        match getItemKey col "data_type" with
        | .error e => .error e
        | .ok dtype =>
          match getItemKey col "is_nullable" with
          | .error e => .error e
          | .ok isn =>
            match getItemKey col "column_default" with
            | .error e => .error e
            | .ok cdef =>
              buildSchema rest (assocAppend acc table
                [("name", cname), ("type", dtype),
                 ("nullable", .vBool (valueEq isn (.vStr "YES"))),
                 ("default", cdef)])

/-- `TaskDatabase.get_database_schema`: fetch the column catalogue and group
it by table. -/
def db_get_database_schema (b : Backend) :
    Except String (List (Value × List Row)) × List DbCall :=
  match db_execute_query b get_database_schema_sql [] with
  | (.error e, cs) => (.error e, cs)
  | (.ok columns, cs) => (buildSchema columns [], cs)

/-! ### JSON serialization

Modelled from the spec: `json.dumps(..., indent=2)` is the Python standard
library, not repository code; per the spec's Result Renderer contract it
"serializes the full result as indented JSON-equivalent text with no
information loss".  We model it concretely: two-space indentation, `", "`
item separators rendered as `",\n" + indent`, `": "` key separators, and
standard JSON string escaping (quote, backslash, and the control-character
short forms, other control characters as `\u00XX`; non-ASCII characters are
left verbatim, the `ensure_ascii=False` form of the same information). -/

/-- The hexadecimal digit character for `n < 16` (lowercase). -/
def hexDig : Nat → Char
  | 0 => '0' | 1 => '1' | 2 => '2' | 3 => '3'
  | 4 => '4' | 5 => '5' | 6 => '6' | 7 => '7'
  | 8 => '8' | 9 => '9' | 10 => 'a' | 11 => 'b'
  | 12 => 'c' | 13 => 'd' | 14 => 'e' | _ => 'f'

/-- The numeric value of a hexadecimal digit character (by code point:
digits 48-57, lowercase 97-102, uppercase 65-70). -/
def hexVal (c : Char) : Option Nat :=
  let n := c.toNat
  if 48 ≤ n ∧ n ≤ 57 then some (n - 48)
  else if 97 ≤ n ∧ n ≤ 102 then some (n - 87)
  else if 65 ≤ n ∧ n ≤ 70 then some (n - 55)
  else none

/-- JSON escape of one character. -/
def escChar (c : Char) : List Char :=
  if c = '"' then ['\\', '"']
  else if c = '\\' then ['\\', '\\']
  else if c = '\n' then ['\\', 'n']
  else if c = '\t' then ['\\', 't']
  else if c = '\r' then ['\\', 'r']
  else if c = '\x08' then ['\\', 'b']
  else if c = '\x0c' then ['\\', 'f']
  else if c.toNat < 0x20 then
    ['\\', 'u', '0', '0', hexDig (c.toNat / 16), hexDig (c.toNat % 16)]
  else [c]

/-- JSON escape of a character sequence. -/
def escList : List Char → List Char
  | [] => []
  | c :: cs => escChar c ++ escList cs

/-- A JSON string literal (characters): opening quote, escaped body,
closing quote. -/
def qstrL (s : String) : List Char :=
  '"' :: (escList s.data ++ ['"'])

/-- `indent`-level leading spaces of `json.dumps(..., indent=2)`. -/
def indL (lvl : Nat) : List Char := List.replicate (2 * lvl) ' '

mutual
/-- `json.dumps(v, indent=2)` at nesting level `lvl`, as characters. -/
def dumpsL (lvl : Nat) : Value → List Char
  | .vNull => "null".data
  | .vBool b => if b then "true".data else "false".data
  | .vInt n => (toString n).data
  | .vStr s => qstrL s
  | .vArr [] => "[]".data
  | .vArr (x :: xs) =>
    '[' :: '\n' :: (indL (lvl + 1) ++ dumpsL (lvl + 1) x ++
      arrTailL (lvl + 1) xs ++ '\n' :: (indL lvl ++ [']']))
  | .vObj [] => "\x7b\x7d".data
  | .vObj ((k, v) :: fs) =>
    '\x7b' :: '\n' :: (indL (lvl + 1) ++ qstrL k ++ ':' :: ' ' ::
      (dumpsL (lvl + 1) v ++ objTailL (lvl + 1) fs ++
        '\n' :: (indL lvl ++ ['\x7d'])))

/-- The remaining array items, each preceded by `",\n" + indent`. -/
def arrTailL (lvl : Nat) : List Value → List Char
  | [] => []
  | x :: xs => ',' :: '\n' :: (indL lvl ++ dumpsL lvl x ++ arrTailL lvl xs)

/-- The remaining object members, each preceded by `",\n" + indent`. -/
def objTailL (lvl : Nat) : List (String × Value) → List Char
  | [] => []
  | (k, v) :: fs =>
    ',' :: '\n' :: (indL lvl ++ qstrL k ++ ':' :: ' ' ::
      (dumpsL lvl v ++ objTailL lvl fs))
end

/-- `json.dumps(v, indent=2)` as a string. -/
def dumpsV (lvl : Nat) (v : Value) : String := String.mk (dumpsL lvl v)

/-- JSON rendering of a task list: `json.dumps(tasks, default=str, indent=2)`
(all row values are already in the JSON-representable fragment). -/
def dumpsRows (rows : List Row) : String :=
  dumpsV 0 (.vArr (rows.map .vObj))

/-- A `json.dumps` dictionary key: strings pass through; `int`, `bool` and
`None` keys are coerced to their JSON spellings; container keys raise
`TypeError`. -/
def jsonKey : Value → Except String String
  | .vStr s => .ok s
  | .vInt n => .ok (toString n)
  | .vBool b => .ok (if b then "true" else "false")
  | .vNull => .ok "null"
  | _ => .error "keys must be str, int, float, bool or None, not a container"

/-- The grouped schema as a JSON value (keys coerced as `json.dumps` does). -/
def schemaJsonValue : List (Value × List Row) → Except String Value
  | [] => .ok (.vObj [])
  | (k, rows) :: t =>
    match jsonKey k with
    | .error e => .error e
    | .ok ks =>
      match schemaJsonValue t with
      | .error e => .error e
      | .ok (.vObj fs) => .ok (.vObj ((ks, .vArr (rows.map .vObj)) :: fs))
      | .ok _ => .error "unreachable"

/-! ### Tool handlers and dispatch (src/src/mcp_server.py) -/

/-- One task line of the `list_tasks` rendering (field accesses and
truthiness checks in source order). -/
def renderTaskLine (t : Row) : Except String String := do
  let tid ← getItemKey t "id"
  let title ← getItemKey t "title"
  let status ← getItemKey t "status"
  let priority ← getItemKey t "priority"
  let assigned ← getItemKey t "assigned_to"
  let apart := if pyTruthy assigned then "Assigned to: " ++ pyStrV assigned ++ "\n" else ""
  let cats ← getItemKey t "categories"
  let cpart ←
    if pyTruthy cats then do
      let j ← pyJoin ", " cats
      pure ("Categories: " ++ j ++ "\n")
    else pure ""
  let created ← getItemKey t "created_at"
  pure ("ID: " ++ pyStrV tid ++ "\n" ++ "Title: " ++ pyStrV title ++ "\n" ++
    "Status: " ++ pyStrV status ++ "\n" ++ "Priority: " ++ pyStrV priority ++ "\n" ++
    apart ++ cpart ++ "Created: " ++ pyStrV created ++ "\n" ++ "---\n")

/-- The concatenated task lines of `list_tasks`. -/
def renderTaskLines : List Row → Except String String
  | [] => .ok ""
  | t :: rest =>
    match renderTaskLine t with
    | .error e => .error e
    | .ok a =>
      match renderTaskLines rest with
      | .error e => .error e
      | .ok b => .ok (a ++ b)

/-- `_handle_list_tasks`. -/
def handle_list_tasks (b : Backend) (args : Args) :
    Except String String × List DbCall :=
  let status := getKeyD args "status" .vNull
  if pyTruthy status then
    match db_get_tasks_by_status b status with
    | (.error e, cs) => (.error e, cs)
    | (.ok tasks, cs) =>
      let header := "Tasks with status '" ++ pyStrV status ++ "':\n\n"
      if tasks.isEmpty then (.ok (header ++ "No tasks found."), cs)
      else
        match renderTaskLines tasks with
        | .error e => (.error e, cs)
        | .ok body => (.ok (header ++ body), cs)
  else
    match db_get_all_tasks b with
    | (.error e, cs) => (.error e, cs)
    | (.ok tasks, cs) =>
      let header := "All tasks:\n\n"
      if tasks.isEmpty then (.ok (header ++ "No tasks found."), cs)
      else
        match renderTaskLines tasks with
        | .error e => (.error e, cs)
        | .ok body => (.ok (header ++ body), cs)

/-- The detail rendering of `get_task` (field accesses in source order). -/
def renderTaskDetails (t : Row) : Except String String := do
  let tid ← getItemKey t "id"
  let title ← getItemKey t "title"
  let desc ← getItemKey t "description"
  let status ← getItemKey t "status"
  let priority ← getItemKey t "priority"
  let assigned ← getItemKey t "assigned_to"
  let cats ← getItemKey t "categories"
  let cpart ← if pyTruthy cats then pyJoin ", " cats else pure "None"
  let tags ← getItemKey t "tags"
  let tpart ← if pyTruthy tags then pyJoin ", " tags else pure "None"
  let created ← getItemKey t "created_at"
  let updated ← getItemKey t "updated_at"
  let due ← getItemKey t "due_date"
  pure ("Task Details:\n\n" ++ "ID: " ++ pyStrV tid ++ "\n" ++
    "Title: " ++ pyStrV title ++ "\n" ++
    "Description: " ++ (if pyTruthy desc then pyStrV desc else "No description") ++ "\n" ++
    "Status: " ++ pyStrV status ++ "\n" ++ "Priority: " ++ pyStrV priority ++ "\n" ++
    "Assigned to: " ++ (if pyTruthy assigned then pyStrV assigned else "Unassigned") ++ "\n" ++
    "Categories: " ++ cpart ++ "\n" ++ "Tags: " ++ tpart ++ "\n" ++
    "Created: " ++ pyStrV created ++ "\n" ++ "Updated: " ++ pyStrV updated ++ "\n" ++
    (if pyTruthy due then "Due date: " ++ pyStrV due ++ "\n" else ""))

/-- `_handle_get_task`: a `None` (or empty) record renders the not-found
sentence as a successful response. -/
def handle_get_task (b : Backend) (args : Args) :
    Except String String × List DbCall :=
  match getItemKey args "task_id" with
  | .error e => (.error e, [])
  | .ok task_id =>
    match db_get_task_by_id b task_id with
    | (.error e, cs) => (.error e, cs)
    | (.ok none, cs) =>
      (.ok ("Task with ID " ++ pyStrV task_id ++ " not found."), cs)
    | (.ok (some t), cs) =>
      if t.isEmpty then
        (.ok ("Task with ID " ++ pyStrV task_id ++ " not found."), cs)
      else (renderTaskDetails t, cs)

/-- The success rendering of `create_task`. -/
def renderCreated (t : Row) : Except String String := do
  let tid ← getItemKey t "id"
  let title ← getItemKey t "title"
  let status ← getItemKey t "status"
  let priority ← getItemKey t "priority"
  pure (("Task created successfully!\n\n" ++ "ID: " ++ pyStrV tid ++ "\n" ++
    "Title: " ++ pyStrV title ++ "\n" ++ "Status: " ++ pyStrV status ++ "\n") ++
    ("Priority: " ++ pyStrV priority ++ "\n"))

/-- `_handle_create_task`: defaults `priority="medium"`, `tags=[]`; the
`due_date` parameter of the storage call keeps its `None` default. -/
def handle_create_task (b : Backend) (args : Args) :
    Except String String × List DbCall :=
  match getItemKey args "title" with
  | .error e => (.error e, [])
  | .ok title =>
    let description := getKeyD args "description" .vNull
    let priority := getKeyD args "priority" (.vStr "medium")
    let assigned_to := getKeyD args "assigned_to" .vNull
    let tags := getKeyD args "tags" (.vArr [])
    match db_create_task b title description priority assigned_to .vNull tags with
    | (.error e, cs) => (.error e, cs)
    | (.ok none, cs) => (.ok "Failed to create task.", cs)
    | (.ok (some t), cs) =>
      if t.isEmpty then (.ok "Failed to create task.", cs)
      else (renderCreated t, cs)

/-- `_handle_update_task_status`. -/
def handle_update_task_status (b : Backend) (args : Args) :
    Except String String × List DbCall :=
  match getItemKey args "task_id" with
  | .error e => (.error e, [])
  | .ok task_id =>
    match getItemKey args "status" with
    | .error e => (.error e, [])
    | .ok status =>
      match db_update_task_status b task_id status with
      | (.error e, cs) => (.error e, cs)
      | (.ok success, cs) =>
        if success then
          (.ok ("Task " ++ pyStrV task_id ++ " status updated to '" ++
            pyStrV status ++ "' successfully."), cs)
        else
          (.ok ("Failed to update task " ++ pyStrV task_id ++ " status."), cs)

/-- `_handle_delete_task`. -/
def handle_delete_task (b : Backend) (args : Args) :
    Except String String × List DbCall :=
  match getItemKey args "task_id" with
  | .error e => (.error e, [])
  | .ok task_id =>
    match db_delete_task b task_id with
    | (.error e, cs) => (.error e, cs)
    | (.ok success, cs) =>
      if success then
        (.ok ("Task " ++ pyStrV task_id ++ " deleted successfully."), cs)
      else
        (.ok ("Failed to delete task " ++ pyStrV task_id ++ "."), cs)

/-- The success rendering of `add_task_comment`. -/
def renderCommentAdded (task_id : Value) (c : Row) : Except String String := do
  let a ← getItemKey c "author"
  let txt ← getItemKey c "comment"
  let created ← getItemKey c "created_at"
  pure ("Comment added to task " ++ pyStrV task_id ++ ":\n" ++
    "Author: " ++ pyStrV a ++ "\n" ++ "Comment: " ++ pyStrV txt ++
    "\n" ++ "Created: " ++ pyStrV created)

/-- `_handle_add_task_comment`: default `author="Anonymous"`. -/
def handle_add_task_comment (b : Backend) (args : Args) :
    Except String String × List DbCall :=
  match getItemKey args "task_id" with
  | .error e => (.error e, [])
  | .ok task_id =>
    match getItemKey args "comment" with
    | .error e => (.error e, [])
    | .ok comment =>
      let author := getKeyD args "author" (.vStr "Anonymous")
      match db_add_task_comment b task_id comment author with
      | (.error e, cs) => (.error e, cs)
      | (.ok obj?, cs) =>
        match obj? with
        | some c =>
          if c.isEmpty then
            (.ok ("Failed to add comment to task " ++ pyStrV task_id ++ "."), cs)
          else
            (match renderCommentAdded task_id c with
            | .error e => (.error e, cs)
            | .ok txt => (.ok txt, cs))
        | none =>
          (.ok ("Failed to add comment to task " ++ pyStrV task_id ++ "."), cs)

/-- One comment of the `get_task_comments` rendering. -/
def renderCommentLine (c : Row) : Except String String := do
  let a ← getItemKey c "author"
  let created ← getItemKey c "created_at"
  let txt ← getItemKey c "comment"
  pure ("Author: " ++ pyStrV a ++ "\n" ++ "Date: " ++ pyStrV created ++ "\n" ++
    "Comment: " ++ pyStrV txt ++ "\n" ++ "---\n")

/-- The concatenated comment lines. -/
def renderCommentLines : List Row → Except String String
  | [] => .ok ""
  | c :: rest =>
    match renderCommentLine c with
    | .error e => .error e
    | .ok a =>
      match renderCommentLines rest with
      | .error e => .error e
      | .ok b => .ok (a ++ b)

/-- `_handle_get_task_comments`. -/
def handle_get_task_comments (b : Backend) (args : Args) :
    Except String String × List DbCall :=
  match getItemKey args "task_id" with
  | .error e => (.error e, [])
  | .ok task_id =>
    match db_get_task_comments b task_id with
    | (.error e, cs) => (.error e, cs)
    | (.ok comments, cs) =>
      if comments.isEmpty then
        (.ok ("No comments found for task " ++ pyStrV task_id ++ "."), cs)
      else
        match renderCommentLines comments with
        | .error e => (.error e, cs)
        | .ok body =>
          (.ok ("Comments for task " ++ pyStrV task_id ++ ":\n\n" ++ body), cs)

/-- One category of the `list_categories` rendering. -/
def renderCategoryLine (c : Row) : Except String String := do
  let cid ← getItemKey c "id"
  let name ← getItemKey c "name"
  let desc ← getItemKey c "description"
  let color ← getItemKey c "color"
  pure ("ID: " ++ pyStrV cid ++ "\n" ++ "Name: " ++ pyStrV name ++ "\n" ++
    "Description: " ++ (if pyTruthy desc then pyStrV desc else "No description") ++
    "\n" ++ "Color: " ++ pyStrV color ++ "\n" ++ "---\n")

/-- The concatenated category lines. -/
def renderCategoryLines : List Row → Except String String
  | [] => .ok ""
  | c :: rest =>
    match renderCategoryLine c with
    | .error e => .error e
    | .ok a =>
      match renderCategoryLines rest with
      | .error e => .error e
      | .ok b => .ok (a ++ b)

/-- `_handle_list_categories`. -/
def handle_list_categories (b : Backend) (args : Args) :
    Except String String × List DbCall :=
  let _ := args
  match db_get_all_categories b with
  | (.error e, cs) => (.error e, cs)
  | (.ok categories, cs) =>
    if categories.isEmpty then (.ok "No categories found.", cs)
    else
      match renderCategoryLines categories with
      | .error e => (.error e, cs)
      | .ok body => (.ok ("Available categories:\n\n" ++ body), cs)

/-- `_handle_execute_query`: strip the statement, apply the read-only guard,
then run it; a storage fault on this path is caught locally and rendered as
the operation-specific failure sentence. -/
def handle_execute_query (b : Backend) (args : Args) :
    Except String String × List DbCall :=
  match getItemKey args "query" with
  | .error e => (.error e, [])
  | .ok qv =>
    match pyStripMethod qv with
    | .error e => (.error e, [])
    | .ok query =>
      if !(pyStartsWith (pyUpper query) "SELECT") then
        (.ok "Error: Only SELECT queries are allowed for security reasons.", [])
      else
        match db_execute_query b query [] with
        | (.error e, cs) => (.ok ("Query execution failed: " ++ e), cs)
        | (.ok results, cs) =>
          if results.isEmpty then
            (.ok "Query executed successfully. No results returned.", cs)
          else
            (.ok ("Query Results (" ++ toString results.length ++ " rows):\n\n" ++
              dumpsRows results), cs)

/-- The text rendering of one schema table (accesses in source order:
`nullable`, `default`, then the f-string's `name` and `type`). -/
def renderSchemaCols : List Row → Except String String
  | [] => .ok ""
  | col :: rest => do
    let nullable ← getItemKey col "nullable"
    let dflt ← getItemKey col "default"
    let name ← getItemKey col "name"
    let ty ← getItemKey col "type"
    let line := "  - " ++ pyStrV name ++ ": " ++ pyStrV ty ++
      (if pyTruthy nullable then " (nullable)" else " (not null)") ++
      (if pyTruthy dflt then " default: " ++ pyStrV dflt else "") ++ "\n"
    let body ← renderSchemaCols rest
    pure (line ++ body)

/-- The text rendering of the whole schema. -/
def renderSchemaTables : List (Value × List Row) → Except String String
  | [] => .ok ""
  | (table, cols) :: rest => do
    let body ← renderSchemaCols cols
    let tail ← renderSchemaTables rest
    pure ("Table: " ++ pyStrV table ++ "\n" ++ body ++ "\n" ++ tail)

/-- `_handle_get_schema`. -/
def handle_get_schema (b : Backend) (args : Args) :
    Except String String × List DbCall :=
  let _ := args
  match db_get_database_schema b with
  | (.error e, cs) => (.error e, cs)
  | (.ok schema, cs) =>
    match renderSchemaTables schema with
    | .error e => (.error e, cs)
    | .ok body => (.ok ("Database Schema:\n\n" ++ body), cs)

/-- `handle_call_tool`: the name-to-handler chain of the Dispatcher; any
exception becomes the `"Error: " + str(e)` response, so the function is
total and every dispatch yields a response text. -/
def handle_call_tool (b : Backend) (name : String) (args : Args) :
    String × List DbCall :=
  let r : Except String String × List DbCall :=
    if name = "list_tasks" then handle_list_tasks b args
    else if name = "get_task" then handle_get_task b args
    else if name = "create_task" then handle_create_task b args
    else if name = "update_task_status" then handle_update_task_status b args
    else if name = "delete_task" then handle_delete_task b args
    else if name = "add_task_comment" then handle_add_task_comment b args
    else if name = "get_task_comments" then handle_get_task_comments b args
    else if name = "list_categories" then handle_list_categories b args
    else if name = "execute_query" then handle_execute_query b args
    else if name = "get_schema" then handle_get_schema b args
    else (.error ("Unknown tool: " ++ name), [])
  match r with
  | (.ok t, cs) => (t, cs)
  | (.error e, cs) => ("Error: " ++ e, cs)

/-- The path segment of a `task://` URI: `uri.split("//")[1]`, where the
split is on non-overlapping occurrences of `"//"`. -/
def splitDslash : List Char → List (List Char)
  | [] => [[]]
  | '/' :: '/' :: rest => [] :: splitDslash rest
  | c :: rest =>
    match splitDslash rest with
    | [] => [[c]]
    | h :: t => (c :: h) :: t

/-- `uri.split("//")[1]` (total here: a `task://` URI always has a second
segment). -/
def uriSegment (uri : String) : String :=
  String.mk ((splitDslash uri.data).getD 1 [])

/-- `handle_read_resource`: the Resource Resolver; any exception becomes the
`"Error reading resource: " + str(e)` response text. -/
def handle_read_resource (b : Backend) (uri : String) :
    String × List DbCall :=
  let r : Except String String × List DbCall :=
    if pyStartsWith uri "task://" then
      let status := uriSegment uri
      if status = "all" then
        match db_get_all_tasks b with
        | (.error e, cs) => (.error e, cs)
        | (.ok tasks, cs) => (.ok (dumpsRows tasks), cs)
      else
        match db_get_tasks_by_status b (.vStr status) with
        | (.error e, cs) => (.error e, cs)
        | (.ok tasks, cs) => (.ok (dumpsRows tasks), cs)
    else if uri = "schema://database" then
      match db_get_database_schema b with
      | (.error e, cs) => (.error e, cs)
      | (.ok schema, cs) =>
        match schemaJsonValue schema with
        | .error e => (.error e, cs)
        | .ok v => (.ok (dumpsV 0 v), cs)
    else (.error ("Unknown resource: " ++ uri), [])
  match r with
  | (.ok t, cs) => (t, cs)
  | (.error e, cs) => ("Error reading resource: " ++ e, cs)

/-- The ten registered tool names. -/
def toolNames : List String :=
  ["list_tasks", "get_task", "create_task", "update_task_status",
   "delete_task", "add_task_comment", "get_task_comments",
   "list_categories", "execute_query", "get_schema"]

/-- The required fields of each registered tool, per its declared input
schema. -/
def requiredFields : String → List String
  | "get_task" => ["task_id"]
  | "create_task" => ["title"]
  | "update_task_status" => ["task_id", "status"]
  | "delete_task" => ["task_id"]
  | "add_task_comment" => ["task_id", "comment"]
  | "get_task_comments" => ["task_id"]
  | "execute_query" => ["query"]
  | _ => []


/-! ### Typed schema values and a JSON parser for the schema shape

`ColumnDesc` is the column descriptor produced by `get_database_schema`
(name, type, nullability, default expression); a `Schema` is the mapping
from table name to its ordered column descriptors.  `parseSchemaJson` is a
recursive-descent parser for the JSON text that `json.dumps(schema,
indent=2)` produces for such a mapping; the round-trip theorem below shows
the rendering loses no information. -/

/-- One column descriptor of the schema mapping. -/
structure ColumnDesc where
  name : String
  type : String
  nullable : Bool
  default : Option String
deriving Repr, DecidableEq

/-- A schema mapping: table name to ordered column descriptors. -/
abbrev Schema := List (String × List ColumnDesc)

/-- The row (dict) built by `get_database_schema` for one column. -/
def colRow (c : ColumnDesc) : Row :=
  [("name", .vStr c.name), ("type", .vStr c.type),
   ("nullable", .vBool c.nullable),
   ("default", match c.default with | none => .vNull | some d => .vStr d)]

/-- The column descriptor as a JSON value. -/
def colValue (c : ColumnDesc) : Value := .vObj (colRow c)

/-- The schema mapping as a JSON value (the renderer's input). -/
def schemaValue (s : Schema) : Value :=
  .vObj (s.map fun p => (p.1, .vArr (p.2.map colValue)))

/-- The grouped storage-layer form of a typed schema, as consumed by the
resource renderer. -/
def schemaVRows (s : Schema) : List (Value × List Row) :=
  s.map fun p => (.vStr p.1, p.2.map colRow)

/-- The structured JSON rendering of the schema (`json.dumps(schema,
indent=2)`). -/
def renderSchemaJson (s : Schema) : String := dumpsV 0 (schemaValue s)

/-- JSON insignificant whitespace. -/
def isWsChar (c : Char) : Bool := c = ' ' || c = '\n' || c = '\t' || c = '\r'

/-- Skip leading JSON whitespace. -/
def skipWs : List Char → List Char
  | [] => []
  | c :: t => if isWsChar c then skipWs t else c :: t

/-- One-character JSON escape short forms. -/
def unescSimple (e : Char) : Option Char :=
  if e = '"' then some '"'
  else if e = '\\' then some '\\'
  else if e = '/' then some '/'
  else if e = 'n' then some '\n'
  else if e = 't' then some '\t'
  else if e = 'r' then some '\r'
  else if e = 'b' then some '\x08'
  else if e = 'f' then some '\x0c'
  else none

/-- Parse a JSON string body after the opening quote: returns the unescaped
characters and the input after the closing quote. -/
def unescChars : List Char → Option (List Char × List Char)
  | [] => none
  | '"' :: rest => some ([], rest)
  | '\\' :: 'u' :: a :: b :: c :: d :: rest =>
    match hexVal a, hexVal b, hexVal c, hexVal d with
    | some va, some vb, some vc, some vd =>
      match unescChars rest with
      | some (cs, r) =>
        some (Char.ofNat (((va * 16 + vb) * 16 + vc) * 16 + vd) :: cs, r)
      | none => none
    | _, _, _, _ => none
  | '\\' :: e :: rest =>
    match unescSimple e with
    | some ch =>
      match unescChars rest with
      | some (cs, r) => some (ch :: cs, r)
      | none => none
    | none => none
  | c :: rest =>
    match unescChars rest with
    | some (cs, r) => some (c :: cs, r)
    | none => none

/-- Parse a JSON string literal (expects the opening quote first). -/
def parseQStr : List Char → Option (String × List Char)
  | '"' :: rest =>
    match unescChars rest with
    | some (cs, r) => some (String.mk cs, r)
    | none => none
  | _ => none

/-- Parse a JSON boolean literal. -/
def parseBoolLit : List Char → Option (Bool × List Char)
  | 't' :: 'r' :: 'u' :: 'e' :: r => some (true, r)
  | 'f' :: 'a' :: 'l' :: 's' :: 'e' :: r => some (false, r)
  | _ => none

/-- Parse a string-or-null JSON value (the `default` field). -/
def parseDefaultVal (l : List Char) : Option (Option String × List Char) :=
  match l with
  | '"' :: _ =>
    match parseQStr l with
    | some (s, r) => some (some s, r)
    | none => none
  | 'n' :: 'u' :: 'l' :: 'l' :: r => some (none, r)
  | _ => none

/-- Parse a column-descriptor object, starting at its opening brace. -/
def parseColObjAt (l : List Char) : Option (ColumnDesc × List Char) :=
  match l with
  | '\x7b' :: r1 =>
    match parseQStr (skipWs r1) with
    | some (k1, r2) =>
      if k1 = "name" then
        match skipWs r2 with
        | ':' :: r3 =>
          match parseQStr (skipWs r3) with
          | some (nm, r4) =>
            match skipWs r4 with
            | ',' :: r5 =>
              match parseQStr (skipWs r5) with
              | some (k2, r6) =>
                if k2 = "type" then
                  match skipWs r6 with
                  | ':' :: r7 =>
                    match parseQStr (skipWs r7) with
                    | some (ty, r8) =>
                      match skipWs r8 with
                      | ',' :: r9 =>
                        match parseQStr (skipWs r9) with
                        | some (k3, r10) =>
                          if k3 = "nullable" then
                            match skipWs r10 with
                            | ':' :: r11 =>
                              match parseBoolLit (skipWs r11) with
                              | some (nb, r12) =>
                                match skipWs r12 with
                                | ',' :: r13 =>
                                  match parseQStr (skipWs r13) with
                                  | some (k4, r14) =>
                                    if k4 = "default" then
                                      match skipWs r14 with
                                      | ':' :: r15 =>
                                        match parseDefaultVal (skipWs r15) with
                                        | some (dv, r16) =>
                                          match skipWs r16 with
                                          | '\x7d' :: r17 =>
                                            some (⟨nm, ty, nb, dv⟩, r17)
                                          | _ => none
                                        | none => none
                                      | _ => none
                                    else none
                                  | none => none
                                | _ => none
                              | none => none
                            | _ => none
                          else none
                        | none => none
                      | _ => none
                    | none => none
                  | _ => none
                else none
              | none => none
            | _ => none
          | none => none
        | _ => none
      else none
    | none => none
  | _ => none

/-- Parse a column-descriptor object, skipping leading whitespace. -/
def parseColObj (l : List Char) : Option (ColumnDesc × List Char) :=
  parseColObjAt (skipWs l)

/-- Parse the remaining comma-separated column objects of an array (fuel
bounds the number of items). -/
def parseColsAux : Nat → List Char → Option (List ColumnDesc × List Char)
  | 0, _ => none
  | fuel + 1, l =>
    match parseColObj l with
    | none => none
    | some (c, r) =>
      match skipWs r with
      | ',' :: r2 =>
        match parseColsAux fuel r2 with
        | some (cs, r3) => some (c :: cs, r3)
        | none => none
      | ']' :: r2 => some ([c], r2)
      | _ => none

/-- Parse a JSON array of column-descriptor objects. -/
def parseColList (fuel : Nat) (l : List Char) :
    Option (List ColumnDesc × List Char) :=
  match skipWs l with
  | '[' :: r =>
    match skipWs r with
    | ']' :: r2 => some ([], r2)
    | _ => parseColsAux fuel r
  | _ => none

/-- Parse the comma-separated members of the top-level schema object (fuel
bounds the number of tables). -/
def parseTablesAux : Nat → List Char → Option (Schema × List Char)
  | 0, _ => none
  | fuel + 1, l =>
    match parseQStr (skipWs l) with
    | none => none
    | some (k, r) =>
      match skipWs r with
      | ':' :: r2 =>
        match parseColList fuel r2 with
        | none => none
        | some (cols, r3) =>
          match skipWs r3 with
          | ',' :: r4 =>
            match parseTablesAux fuel r4 with
            | some (sch, r5) => some ((k, cols) :: sch, r5)
            | none => none
          | '\x7d' :: r4 => some ([(k, cols)], r4)
          | _ => none
      | _ => none

/-- Parse the top-level schema object. -/
def parseSchemaTop (fuel : Nat) (l : List Char) : Option (Schema × List Char) :=
  match skipWs l with
  | '\x7b' :: r =>
    match skipWs r with
    | '\x7d' :: r2 => some ([], r2)
    | _ => parseTablesAux fuel r
  | _ => none

/-- Parse a full schema JSON document (whitespace-insensitive; fails on
trailing garbage). -/
def parseSchemaJson (s : String) : Option Schema :=
  match parseSchemaTop (s.data.length + 1) s.data with
  | some (sch, rest) => if skipWs rest = [] then some sch else none
  | none => none

/-! ### Concrete collaborators for witnesses -/

/-- A storage backend that returns no rows and an empty status tag. -/
def emptyB : Backend := ⟨fun _ _ => .ok [], fun _ _ => .ok ""⟩

/-- A storage backend whose every call raises, with exception text `e`. -/
def errB (e : String) : Backend := ⟨fun _ _ => .error e, fun _ _ => .error e⟩

/-- A well-formed stored task record. -/
def taskRow : Row :=
  [("id", .vInt 1), ("title", .vStr "T"), ("status", .vStr "pending"),
   ("priority", .vStr "medium")]

/-- A storage backend that returns `taskRow` for every query and a
zero-rows-affected status tag for every command. -/
def rowB : Backend := ⟨fun _ _ => .ok [taskRow], fun _ _ => .ok "UPDATE 0"⟩

/-! ### Helper lemmas -/

/-- A list is a prefix of itself followed by anything. -/
theorem isPrefixOf_self_append (l r : List Char) : l.isPrefixOf (l ++ r) = true := by
  induction l with
  | nil => simp [List.isPrefixOf]
  | cons c t ih => simp [List.isPrefixOf, ih]

/-- A rendered text that literally begins with `p` starts with `p`. -/
theorem pyStartsWith_append (p s : String) : pyStartsWith (p ++ s) p = true := by
  simp only [pyStartsWith, String.data_append]
  exact isPrefixOf_self_append _ _

/-- Prefix test fails on distinct head characters. -/
theorem isPrefixOf_cons_ne {x y : Char} (p l : List Char) (h : (x == y) = false) :
    (x :: p).isPrefixOf (y :: l) = false := by
  simp [List.isPrefixOf]
  intro hxy
  simp [hxy] at h

/-! ### C6: unknown operation names -/

/-- C6.  For every operation name not among the ten registered tools,
dispatch returns the failure text `"Error: Unknown tool: <name>"`, which
contains the literal unknown name, and the storage backend is not
invoked. -/
theorem C6_unknown_tool (b : Backend) (name : String) (args : Args)
    (h : name ∉ toolNames) :
    handle_call_tool b name args = ("Error: " ++ ("Unknown tool: " ++ name), []) := by
  simp only [toolNames, List.mem_cons, List.not_mem_nil, or_false, not_or] at h
  obtain ⟨h1, h2, h3, h4, h5, h6, h7, h8, h9, h10⟩ := h
  unfold handle_call_tool
  rw [if_neg h1, if_neg h2, if_neg h3, if_neg h4, if_neg h5, if_neg h6,
    if_neg h7, if_neg h8, if_neg h9, if_neg h10]

/-- Witness for C6 at the concrete name `"frobnicate"`. -/
theorem C6_unknown_tool_witness :
    "frobnicate" ∉ toolNames ∧
      handle_call_tool emptyB "frobnicate" [] =
        ("Error: " ++ ("Unknown tool: " ++ "frobnicate"), []) :=
  ⟨by decide, C6_unknown_tool emptyB "frobnicate" [] (by decide)⟩

/-! ### C5: missing required fields -/

/-- C5.  For every tool invocation in which a required field is absent from
the argument mapping, dispatch returns a Failure (text beginning
`"Error: "`, from the `KeyError` on the subscript access) and the storage
backend is never invoked (the call log is empty). -/
theorem C5_missing_required (b : Backend) (name : String) (args : Args)
    (f : String) (hf : f ∈ requiredFields name)
    (hmiss : lookupKey args f = none) :
    pyStartsWith (handle_call_tool b name args).1 "Error: " = true ∧
      (handle_call_tool b name args).2 = [] := by
  unfold requiredFields at hf
  split at hf
  · -- get_task
    simp only [List.mem_singleton] at hf
    subst hf
    have hres : handle_call_tool b "get_task" args = ("Error: " ++ "'task_id'", []) := by
      simp [handle_call_tool, handle_get_task, getItemKey, hmiss]
    rw [hres]
    exact ⟨pyStartsWith_append "Error: " _, rfl⟩
  · -- create_task
    simp only [List.mem_singleton] at hf
    subst hf
    have hres : handle_call_tool b "create_task" args = ("Error: " ++ "'title'", []) := by
      simp [handle_call_tool, handle_create_task, getItemKey, hmiss]
    rw [hres]
    exact ⟨pyStartsWith_append "Error: " _, rfl⟩
  · -- update_task_status
    simp only [List.mem_cons, List.not_mem_nil, or_false] at hf
    rcases hf with hf | hf
    · subst hf
      have hres : handle_call_tool b "update_task_status" args = ("Error: " ++ "'task_id'", []) := by
        simp [handle_call_tool, handle_update_task_status, getItemKey, hmiss]
      rw [hres]
      exact ⟨pyStartsWith_append "Error: " _, rfl⟩
    · subst hf
      cases h1 : lookupKey args "task_id" with
      | none =>
        have hres : handle_call_tool b "update_task_status" args = ("Error: " ++ "'task_id'", []) := by
          simp [handle_call_tool, handle_update_task_status, getItemKey, h1]
        rw [hres]
        exact ⟨pyStartsWith_append "Error: " _, rfl⟩
      | some v =>
        have hres : handle_call_tool b "update_task_status" args = ("Error: " ++ "'status'", []) := by
          simp [handle_call_tool, handle_update_task_status, getItemKey, h1, hmiss]
        rw [hres]
        exact ⟨pyStartsWith_append "Error: " _, rfl⟩
  · -- delete_task
    simp only [List.mem_singleton] at hf
    subst hf
    have hres : handle_call_tool b "delete_task" args = ("Error: " ++ "'task_id'", []) := by
      simp [handle_call_tool, handle_delete_task, getItemKey, hmiss]
    rw [hres]
    exact ⟨pyStartsWith_append "Error: " _, rfl⟩
  · -- add_task_comment
    simp only [List.mem_cons, List.not_mem_nil, or_false] at hf
    rcases hf with hf | hf
    · subst hf
      have hres : handle_call_tool b "add_task_comment" args = ("Error: " ++ "'task_id'", []) := by
        simp [handle_call_tool, handle_add_task_comment, getItemKey, hmiss]
      rw [hres]
      exact ⟨pyStartsWith_append "Error: " _, rfl⟩
    · subst hf
      cases h1 : lookupKey args "task_id" with
      | none =>
        have hres : handle_call_tool b "add_task_comment" args = ("Error: " ++ "'task_id'", []) := by
          simp [handle_call_tool, handle_add_task_comment, getItemKey, h1]
        rw [hres]
        exact ⟨pyStartsWith_append "Error: " _, rfl⟩
      | some v =>
        have hres : handle_call_tool b "add_task_comment" args = ("Error: " ++ "'comment'", []) := by
          simp [handle_call_tool, handle_add_task_comment, getItemKey, h1, hmiss]
        rw [hres]
        exact ⟨pyStartsWith_append "Error: " _, rfl⟩
  · -- get_task_comments
    simp only [List.mem_singleton] at hf
    subst hf
    have hres : handle_call_tool b "get_task_comments" args = ("Error: " ++ "'task_id'", []) := by
      simp [handle_call_tool, handle_get_task_comments, getItemKey, hmiss]
    rw [hres]
    exact ⟨pyStartsWith_append "Error: " _, rfl⟩
  · -- execute_query
    simp only [List.mem_singleton] at hf
    subst hf
    have hres : handle_call_tool b "execute_query" args = ("Error: " ++ "'query'", []) := by
      simp [handle_call_tool, handle_execute_query, getItemKey, hmiss]
    rw [hres]
    exact ⟨pyStartsWith_append "Error: " _, rfl⟩
  · -- no required fields
    simp at hf

/-- Witness for C5: `get_task` with an empty argument mapping. -/
theorem C5_missing_required_witness :
    ("task_id" ∈ requiredFields "get_task" ∧ lookupKey [] "task_id" = none) ∧
      (pyStartsWith (handle_call_tool emptyB "get_task" []).1 "Error: " = true ∧
        (handle_call_tool emptyB "get_task" []).2 = []) :=
  ⟨⟨by decide, rfl⟩,
    C5_missing_required emptyB "get_task" [] "task_id" (by decide) rfl⟩

/-- A text whose first character is not `'E'` does not start with
`"Error: "`. -/
theorem startsWith_error_false (s : String) (x : Char) (xs : List Char)
    (hs : s.data = x :: xs) (hx : (('E' : Char) == x) = false) :
    pyStartsWith s "Error: " = false := by
  have h2 : "Error: ".data = 'E' :: "rror: ".data := rfl
  simp only [pyStartsWith, hs, h2]
  exact isPrefixOf_cons_ne _ _ hx

/-! ### C7: get_task on a missing record is a Success, not a Failure -/

/-- C7.  When the storage lookup for `get_task` returns no record, dispatch
returns the successful text `"Task with ID <id> not found."` (and in
particular not a `"Error: "`-prefixed Failure). -/
theorem C7_get_task_not_found (b : Backend) (args : Args) (tid : Value)
    (harg : lookupKey args "task_id" = some tid)
    (hdb : b.fetch get_task_by_id_sql [tid] = .ok []) :
    (handle_call_tool b "get_task" args).1 =
      "Task with ID " ++ pyStrV tid ++ " not found." ∧
      pyStartsWith (handle_call_tool b "get_task" args).1 "Error: " = false := by
  have hres : handle_call_tool b "get_task" args =
      ("Task with ID " ++ pyStrV tid ++ " not found.",
        [.fetch get_task_by_id_sql [tid]]) := by
    simp [handle_call_tool, handle_get_task, getItemKey, harg,
      db_get_task_by_id, db_execute_query, hdb]
  rw [hres]
  refine ⟨rfl, ?_⟩
  refine startsWith_error_false _ 'T'
    (("ask with ID ".data ++ (pyStrV tid).data) ++ " not found.".data) ?_ (by decide)
  rw [String.data_append, String.data_append,
    show "Task with ID ".data = 'T' :: "ask with ID ".data from rfl,
    List.cons_append, List.cons_append]

/-- Witness for C7 at task id 42 against a backend with no rows. -/
theorem C7_get_task_not_found_witness :
    (lookupKey [("task_id", Value.vInt 42)] "task_id" = some (.vInt 42) ∧
      emptyB.fetch get_task_by_id_sql [.vInt 42] = .ok []) ∧
      (handle_call_tool emptyB "get_task" [("task_id", .vInt 42)]).1 =
        "Task with ID " ++ pyStrV (.vInt 42) ++ " not found." :=
  ⟨⟨rfl, rfl⟩,
    (C7_get_task_not_found emptyB [("task_id", .vInt 42)] (.vInt 42) rfl rfl).1⟩

/-! ### C10: update_task_status / delete_task report via the status tag -/

/-- C10.  `update_task_status` and `delete_task` report success exactly when
the storage status tag contains the substring `"UPDATE 1"` (resp.
`"DELETE 1"`); otherwise (in particular when no record matched, where the
tag is `"UPDATE 0"` / `"DELETE 0"`) the dispatch yields the successful —
not failing — sentence `"Failed to update task <id> status."` resp.
`"Failed to delete task <id>."`. -/
theorem C10_update_delete_status_tag (b : Backend) (args : Args)
    (tid st : Value) (r : String) :
    (lookupKey args "task_id" = some tid → lookupKey args "status" = some st →
      b.exec update_task_status_sql [tid, st] = .ok r →
      ((handle_call_tool b "update_task_status" args).1 =
        (if strContains r "UPDATE 1" then
          "Task " ++ pyStrV tid ++ " status updated to '" ++ pyStrV st ++
            "' successfully."
         else "Failed to update task " ++ pyStrV tid ++ " status.") ∧
        pyStartsWith (handle_call_tool b "update_task_status" args).1
          "Error: " = false)) ∧
    (lookupKey args "task_id" = some tid →
      b.exec delete_task_sql [tid] = .ok r →
      ((handle_call_tool b "delete_task" args).1 =
        (if strContains r "DELETE 1" then
          "Task " ++ pyStrV tid ++ " deleted successfully."
         else "Failed to delete task " ++ pyStrV tid ++ ".") ∧
        pyStartsWith (handle_call_tool b "delete_task" args).1
          "Error: " = false)) := by
  constructor
  · intro h1 h2 h3
    cases hsc : strContains r "UPDATE 1" with
    | true =>
      have hres : handle_call_tool b "update_task_status" args =
          ("Task " ++ pyStrV tid ++ " status updated to '" ++ pyStrV st ++
            "' successfully.", [.exec update_task_status_sql [tid, st]]) := by
        simp [handle_call_tool, handle_update_task_status, getItemKey, h1, h2,
          db_update_task_status, db_execute_command, h3, hsc]
      rw [hres]
      refine ⟨by simp, ?_⟩
      refine startsWith_error_false _ 'T'
        (((("ask ".data ++ (pyStrV tid).data) ++ " status updated to '".data) ++
          (pyStrV st).data) ++ "' successfully.".data) ?_ (by decide)
      rw [String.data_append, String.data_append, String.data_append,
        String.data_append,
        show "Task ".data = 'T' :: "ask ".data from rfl]
      simp [List.cons_append]
    | false =>
      have hres : handle_call_tool b "update_task_status" args =
          ("Failed to update task " ++ pyStrV tid ++ " status.",
            [.exec update_task_status_sql [tid, st]]) := by
        simp [handle_call_tool, handle_update_task_status, getItemKey, h1, h2,
          db_update_task_status, db_execute_command, h3, hsc]
      rw [hres]
      refine ⟨by simp, ?_⟩
      refine startsWith_error_false _ 'F'
        (("ailed to update task ".data ++ (pyStrV tid).data) ++ " status.".data)
        ?_ (by decide)
      rw [String.data_append, String.data_append,
        show "Failed to update task ".data = 'F' :: "ailed to update task ".data
          from rfl,
        List.cons_append, List.cons_append]
  · intro h1 h3
    cases hsc : strContains r "DELETE 1" with
    | true =>
      have hres : handle_call_tool b "delete_task" args =
          ("Task " ++ pyStrV tid ++ " deleted successfully.",
            [.exec delete_task_sql [tid]]) := by
        simp [handle_call_tool, handle_delete_task, getItemKey, h1,
          db_delete_task, db_execute_command, h3, hsc]
      rw [hres]
      refine ⟨by simp, ?_⟩
      refine startsWith_error_false _ 'T'
        (("ask ".data ++ (pyStrV tid).data) ++ " deleted successfully.".data)
        ?_ (by decide)
      rw [String.data_append, String.data_append,
        show "Task ".data = 'T' :: "ask ".data from rfl,
        List.cons_append, List.cons_append]
    | false =>
      have hres : handle_call_tool b "delete_task" args =
          ("Failed to delete task " ++ pyStrV tid ++ ".",
            [.exec delete_task_sql [tid]]) := by
        simp [handle_call_tool, handle_delete_task, getItemKey, h1,
          db_delete_task, db_execute_command, h3, hsc]
      rw [hres]
      refine ⟨by simp, ?_⟩
      refine startsWith_error_false _ 'F'
        (("ailed to delete task ".data ++ (pyStrV tid).data) ++ ".".data)
        ?_ (by decide)
      rw [String.data_append, String.data_append,
        show "Failed to delete task ".data = 'F' :: "ailed to delete task ".data
          from rfl,
        List.cons_append, List.cons_append]

/-- Witness for C10: task id 7 against a backend whose commands affect zero
rows (status tag `"UPDATE 0"`), exercising the failure sentences. -/
theorem C10_update_delete_status_tag_witness :
    (lookupKey [("task_id", Value.vInt 7), ("status", Value.vStr "done")]
        "task_id" = some (.vInt 7) ∧
      lookupKey [("task_id", Value.vInt 7), ("status", Value.vStr "done")]
        "status" = some (.vStr "done") ∧
      rowB.exec update_task_status_sql [.vInt 7, .vStr "done"] =
        .ok "UPDATE 0" ∧
      rowB.exec delete_task_sql [.vInt 7] = .ok "UPDATE 0") ∧
      (handle_call_tool rowB "update_task_status"
          [("task_id", .vInt 7), ("status", .vStr "done")]).1 =
        "Failed to update task " ++ pyStrV (.vInt 7) ++ " status." ∧
      (handle_call_tool rowB "delete_task"
          [("task_id", .vInt 7), ("status", .vStr "done")]).1 =
        "Failed to delete task " ++ pyStrV (.vInt 7) ++ "." := by
  refine ⟨⟨rfl, rfl, rfl, rfl⟩, ?_, ?_⟩
  · have h := (C10_update_delete_status_tag rowB
      [("task_id", .vInt 7), ("status", .vStr "done")] (.vInt 7) (.vStr "done")
      "UPDATE 0").1 rfl rfl rfl
    rw [h.1]
    decide
  · have h := (C10_update_delete_status_tag rowB
      [("task_id", .vInt 7), ("status", .vStr "done")] (.vInt 7) (.vStr "done")
      "UPDATE 0").2 rfl rfl
    rw [h.1]
    decide

/-! ### C1: the read-only query guard -/

/-- C1.  For every `execute_query` invocation with a string statement, the
dispatch yields the guard Failure `"Error: Only SELECT queries are allowed
for security reasons."` with the storage backend never called if and only
if the statement, stripped of surrounding whitespace and uppercased, does
not begin with `SELECT`; and when the guard passes, the storage backend is
called exactly once, with the stripped statement (the identity on
statements without surrounding whitespace, such as
`"SELECT * FROM tasks"`). -/
theorem C1_execute_query_guard (b : Backend) (args : Args) (q : String)
    (harg : lookupKey args "query" = some (.vStr q)) :
    (((handle_call_tool b "execute_query" args).1 =
        "Error: Only SELECT queries are allowed for security reasons." ∧
      (handle_call_tool b "execute_query" args).2 = []) ↔
      pyStartsWith (pyUpper (pyStrip q)) "SELECT" = false) ∧
    (pyStartsWith (pyUpper (pyStrip q)) "SELECT" = true →
      (handle_call_tool b "execute_query" args).2 = [.fetch (pyStrip q) []]) := by
  cases hb : pyStartsWith (pyUpper (pyStrip q)) "SELECT" with
  | false =>
    have hres : handle_call_tool b "execute_query" args =
        ("Error: Only SELECT queries are allowed for security reasons.", []) := by
      simp [handle_call_tool, handle_execute_query, getItemKey, harg,
        pyStripMethod, hb]
    constructor
    · rw [hres]
      simp
    · intro h
      simp at h
  | true =>
    have h2 : (handle_call_tool b "execute_query" args).2 =
        [.fetch (pyStrip q) []] := by
      cases hf : b.fetch (pyStrip q) [] with
      | error e =>
        simp [handle_call_tool, handle_execute_query, getItemKey, harg,
          pyStripMethod, hb, db_execute_query, hf]
      | ok rows =>
        cases rows with
        | nil =>
          simp [handle_call_tool, handle_execute_query, getItemKey, harg,
            pyStripMethod, hb, db_execute_query, hf]
        | cons r rs =>
          simp [handle_call_tool, handle_execute_query, getItemKey, harg,
            pyStripMethod, hb, db_execute_query, hf]
    constructor
    · constructor
      · intro hc
        rw [h2] at hc
        simp at hc
      · intro h
        simp at h
    · intro _
      exact h2

/-- Witness for C1 at the claim's two example statements: the DELETE is
rejected with no storage call, the SELECT reaches the backend exactly once
with exactly that statement. -/
theorem C1_execute_query_guard_witness :
    (lookupKey [("query", Value.vStr "DELETE FROM tasks")] "query" =
        some (.vStr "DELETE FROM tasks") ∧
      lookupKey [("query", Value.vStr "SELECT * FROM tasks")] "query" =
        some (.vStr "SELECT * FROM tasks") ∧
      pyStartsWith (pyUpper (pyStrip "SELECT * FROM tasks")) "SELECT" = true) ∧
      ((handle_call_tool emptyB "execute_query"
          [("query", .vStr "DELETE FROM tasks")]).1 =
        "Error: Only SELECT queries are allowed for security reasons." ∧
       (handle_call_tool emptyB "execute_query"
          [("query", .vStr "DELETE FROM tasks")]).2 = []) ∧
      (handle_call_tool emptyB "execute_query"
          [("query", .vStr "SELECT * FROM tasks")]).2 =
        [.fetch "SELECT * FROM tasks" []] := by
  refine ⟨⟨rfl, rfl, by decide⟩, ?_, ?_⟩
  · exact (C1_execute_query_guard emptyB
      [("query", .vStr "DELETE FROM tasks")] "DELETE FROM tasks" rfl).1.mpr
      (by decide)
  · have h := (C1_execute_query_guard emptyB
      [("query", .vStr "SELECT * FROM tasks")] "SELECT * FROM tasks" rfl).2
      (by decide)
    rw [h, show pyStrip "SELECT * FROM tasks" = "SELECT * FROM tasks" from by decide]

/-! ### C9: defaulted arguments -/

/-- C9.  `create_task` invoked with only the required title calls the
storage operation once with the defaults `priority = "medium"` and
`tags = []` (and `due_date = None`); when the storage echo of the created
record carries that priority, the rendering ends with the literal line
`"Priority: medium"`.  `add_task_comment` without an author calls storage
once with `author = "Anonymous"`. -/
theorem C9_create_task_defaults (b : Backend) (t : String) (row : Row)
    (i ti st tid c : Value) :
    (handle_call_tool b "create_task" [("title", .vStr t)]).2 =
      [.fetch create_task_sql
        [.vStr t, .vNull, .vStr "medium", .vNull, .vNull, .vArr []]] ∧
    (b.fetch create_task_sql
        [.vStr t, .vNull, .vStr "medium", .vNull, .vNull, .vArr []] =
        .ok [row] →
      getItemKey row "id" = .ok i → getItemKey row "title" = .ok ti →
      getItemKey row "status" = .ok st →
      getItemKey row "priority" = .ok (.vStr "medium") →
      ∃ a, (handle_call_tool b "create_task" [("title", .vStr t)]).1 =
        a ++ ("Priority: " ++ "medium" ++ "\n")) ∧
    (handle_call_tool b "add_task_comment"
        [("task_id", tid), ("comment", c)]).2 =
      [.fetch add_task_comment_sql [tid, c, .vStr "Anonymous"]] := by
  refine ⟨?_, ?_, ?_⟩
  · cases hf : b.fetch create_task_sql
        [.vStr t, .vNull, .vStr "medium", .vNull, .vNull, .vArr []] with
    | error e =>
      simp [handle_call_tool, handle_create_task, getItemKey, getKeyD,
        lookupKey, db_create_task, db_execute_query, pyTruthy, hf]
    | ok rows =>
      cases rows with
      | nil =>
        simp [handle_call_tool, handle_create_task, getItemKey, getKeyD,
          lookupKey, db_create_task, db_execute_query, pyTruthy, hf]
      | cons r rs =>
        cases r with
        | nil =>
          simp [handle_call_tool, handle_create_task, getItemKey, getKeyD,
            lookupKey, db_create_task, db_execute_query, pyTruthy, hf]
        | cons p ps =>
          cases hr : renderCreated (p :: ps) with
          | error e =>
            simp [handle_call_tool, handle_create_task, getItemKey, getKeyD,
              lookupKey, db_create_task, db_execute_query, pyTruthy, hf, hr]
          | ok txt =>
            simp [handle_call_tool, handle_create_task, getItemKey, getKeyD,
              lookupKey, db_create_task, db_execute_query, pyTruthy, hf, hr]
  · intro hf hid hti hst hpr
    cases row with
    | nil => simp [getItemKey, lookupKey] at hid
    | cons p ps =>
      have hrow : renderCreated (p :: ps) =
          .ok (("Task created successfully!\n\n" ++ "ID: " ++ pyStrV i ++ "\n" ++
            "Title: " ++ pyStrV ti ++ "\n" ++ "Status: " ++ pyStrV st ++ "\n") ++
            ("Priority: " ++ pyStrV (.vStr "medium") ++ "\n")) := by
        simp only [renderCreated, hid, hti, hst, hpr]
        rfl
      have hres : (handle_call_tool b "create_task" [("title", .vStr t)]).1 =
          ("Task created successfully!\n\n" ++ "ID: " ++ pyStrV i ++ "\n" ++
            "Title: " ++ pyStrV ti ++ "\n" ++ "Status: " ++ pyStrV st ++ "\n") ++
            ("Priority: " ++ pyStrV (.vStr "medium") ++ "\n") := by
        simp [handle_call_tool, handle_create_task, getItemKey, getKeyD,
          lookupKey, db_create_task, db_execute_query, pyTruthy, hf, hrow]
      rw [hres]
      exact ⟨_, rfl⟩
  · cases hf : b.fetch add_task_comment_sql [tid, c, .vStr "Anonymous"] with
    | error e =>
      simp [handle_call_tool, handle_add_task_comment, getItemKey, getKeyD,
        lookupKey, db_add_task_comment, db_execute_query, hf]
    | ok rows =>
      cases rows with
      | nil =>
        simp [handle_call_tool, handle_add_task_comment, getItemKey, getKeyD,
          lookupKey, db_add_task_comment, db_execute_query, hf]
      | cons r rs =>
        cases r with
        | nil =>
          simp [handle_call_tool, handle_add_task_comment, getItemKey, getKeyD,
            lookupKey, db_add_task_comment, db_execute_query, hf]
        | cons p ps =>
          cases hr : renderCommentAdded tid (p :: ps) with
          | error e =>
            simp [handle_call_tool, handle_add_task_comment, getItemKey,
              getKeyD, lookupKey, db_add_task_comment, db_execute_query, hf, hr]
          | ok txt =>
            simp [handle_call_tool, handle_add_task_comment, getItemKey,
              getKeyD, lookupKey, db_add_task_comment, db_execute_query, hf, hr]

/-- Witness for C9 against a backend echoing a medium-priority record. -/
theorem C9_create_task_defaults_witness :
    (rowB.fetch create_task_sql
        [.vStr "T", .vNull, .vStr "medium", .vNull, .vNull, .vArr []] =
        .ok [taskRow] ∧
      getItemKey taskRow "priority" = .ok (.vStr "medium")) ∧
      (handle_call_tool rowB "create_task" [("title", .vStr "T")]).2 =
        [.fetch create_task_sql
          [.vStr "T", .vNull, .vStr "medium", .vNull, .vNull, .vArr []]] ∧
      (∃ a, (handle_call_tool rowB "create_task" [("title", .vStr "T")]).1 =
        a ++ ("Priority: " ++ "medium" ++ "\n")) ∧
      (handle_call_tool rowB "add_task_comment"
          [("task_id", .vInt 3), ("comment", .vStr "hi")]).2 =
        [.fetch add_task_comment_sql [.vInt 3, .vStr "hi", .vStr "Anonymous"]] := by
  have h := C9_create_task_defaults rowB "T" taskRow (.vInt 1) (.vStr "T")
    (.vStr "pending") (.vInt 3) (.vStr "hi")
  exact ⟨⟨rfl, rfl⟩, h.1, h.2.1 rfl rfl rfl rfl rfl, h.2.2⟩

/-! ### C2: argument kind/enumeration validation (refuted: no validation) -/

/-- Counterexample to C2.  `create_task` with `priority = "bogus"` — a value
outside the enumerated set `{low, medium, high, urgent}` — does **not**
yield a Failure: the storage backend is invoked (exactly once, with the
out-of-set value), and the dispatch result is a success text. -/
theorem C2_counterexample :
    (handle_call_tool rowB "create_task"
        [("title", .vStr "T"), ("priority", .vStr "bogus")]).2 =
      [.fetch create_task_sql
        [.vStr "T", .vNull, .vStr "bogus", .vNull, .vNull, .vArr []]] ∧
      pyStartsWith (handle_call_tool rowB "create_task"
        [("title", .vStr "T"), ("priority", .vStr "bogus")]).1 "Error: " =
        false :=
  ⟨rfl, rfl⟩

/-- C2 as amended.  Dispatch performs no kind or allowed-values validation:
a provided enumerated value (`priority` of `create_task`, `status` of
`update_task_status` or `list_tasks`) is passed through unchanged to the
storage backend, which is invoked; a wrong-kind value can yield a Failure
without a storage call only where the handler itself operates on it, as for
a non-string `execute_query` statement. -/
theorem C2_no_argument_validation (b : Backend) (t : String)
    (pr tid st : Value) :
    (handle_call_tool b "create_task"
        [("title", .vStr t), ("priority", pr)]).2 =
      [.fetch create_task_sql [.vStr t, .vNull, pr, .vNull, .vNull, .vArr []]] ∧
    (handle_call_tool b "update_task_status"
        [("task_id", tid), ("status", st)]).2 =
      [.exec update_task_status_sql [tid, st]] ∧
    (pyTruthy st = true →
      (handle_call_tool b "list_tasks" [("status", st)]).2 =
        [.fetch get_tasks_by_status_sql [st]]) ∧
    handle_call_tool b "execute_query" [("query", .vInt 5)] =
      ("Error: " ++ "'int' object has no attribute 'strip'", []) := by
  refine ⟨?_, ?_, ?_, rfl⟩
  · cases hf : b.fetch create_task_sql
        [.vStr t, .vNull, pr, .vNull, .vNull, .vArr []] with
    | error e =>
      simp [handle_call_tool, handle_create_task, getItemKey, getKeyD,
        lookupKey, db_create_task, db_execute_query, pyTruthy, hf]
    | ok rows =>
      cases rows with
      | nil =>
        simp [handle_call_tool, handle_create_task, getItemKey, getKeyD,
          lookupKey, db_create_task, db_execute_query, pyTruthy, hf]
      | cons r rs =>
        cases r with
        | nil =>
          simp [handle_call_tool, handle_create_task, getItemKey, getKeyD,
            lookupKey, db_create_task, db_execute_query, pyTruthy, hf]
        | cons p ps =>
          cases hr : renderCreated (p :: ps) with
          | error e =>
            simp [handle_call_tool, handle_create_task, getItemKey, getKeyD,
              lookupKey, db_create_task, db_execute_query, pyTruthy, hf, hr]
          | ok txt =>
            simp [handle_call_tool, handle_create_task, getItemKey, getKeyD,
              lookupKey, db_create_task, db_execute_query, pyTruthy, hf, hr]
  · cases he : b.exec update_task_status_sql [tid, st] with
    | error e =>
      simp [handle_call_tool, handle_update_task_status, getItemKey,
        lookupKey, db_update_task_status, db_execute_command, he]
    | ok r =>
      cases hsc : strContains r "UPDATE 1" with
      | true =>
        simp [handle_call_tool, handle_update_task_status, getItemKey,
          lookupKey, db_update_task_status, db_execute_command, he, hsc]
      | false =>
        simp [handle_call_tool, handle_update_task_status, getItemKey,
          lookupKey, db_update_task_status, db_execute_command, he, hsc]
  · intro h
    cases hf : b.fetch get_tasks_by_status_sql [st] with
    | error e =>
      simp [handle_call_tool, handle_list_tasks, getKeyD, lookupKey, h,
        db_get_tasks_by_status, db_execute_query, hf]
    | ok tasks =>
      cases tasks with
      | nil =>
        simp [handle_call_tool, handle_list_tasks, getKeyD, lookupKey, h,
          db_get_tasks_by_status, db_execute_query, hf]
      | cons r rs =>
        cases hr : renderTaskLines (r :: rs) with
        | error e =>
          simp [handle_call_tool, handle_list_tasks, getKeyD, lookupKey, h,
            db_get_tasks_by_status, db_execute_query, hf, hr]
        | ok body =>
          simp [handle_call_tool, handle_list_tasks, getKeyD, lookupKey, h,
            db_get_tasks_by_status, db_execute_query, hf, hr]

/-- Witness for the amended C2 at concrete out-of-set values. -/
theorem C2_no_argument_validation_witness :
    pyTruthy (Value.vStr "bogus") = true ∧
      (handle_call_tool emptyB "list_tasks" [("status", .vStr "bogus")]).2 =
        [.fetch get_tasks_by_status_sql [.vStr "bogus"]] ∧
      (handle_call_tool emptyB "update_task_status"
          [("task_id", .vInt 1), ("status", .vStr "bogus")]).2 =
        [.exec update_task_status_sql [.vInt 1, .vStr "bogus"]] :=
  ⟨rfl,
    (C2_no_argument_validation emptyB "T" (.vStr "bogus") (.vInt 1)
      (.vStr "bogus")).2.2.1 rfl,
    (C2_no_argument_validation emptyB "T" (.vStr "bogus") (.vInt 1)
      (.vStr "bogus")).2.1⟩

/-! ### C8: resource resolution -/

/-- C8.  `task://all` issues the unfiltered listing call and every other
`task://` path segment issues the status-filtered call with that segment as
the filter value, with no validation against the status enumeration — so
`task://all` and `task://pending` issue different storage calls; any URI of
an unrecognized scheme yields the Failure text containing
`"Unknown resource: <uri>"`, with no storage call. -/
theorem C8_resource_resolution (b : Backend) :
    (handle_read_resource b "task://all").2 = [.fetch get_all_tasks_sql []] ∧
    (handle_read_resource b "task://pending").2 =
      [.fetch get_tasks_by_status_sql [.vStr "pending"]] ∧
    DbCall.fetch get_all_tasks_sql [] ≠
      DbCall.fetch get_tasks_by_status_sql [.vStr "pending"] ∧
    (∀ uri : String, pyStartsWith uri "task://" = true →
      uriSegment uri ≠ "all" →
      (handle_read_resource b uri).2 =
        [.fetch get_tasks_by_status_sql [.vStr (uriSegment uri)]]) ∧
    (∀ uri : String, pyStartsWith uri "task://" = false →
      uri ≠ "schema://database" →
      handle_read_resource b uri =
        ("Error reading resource: " ++ ("Unknown resource: " ++ uri), [])) := by
  refine ⟨?_, ?_, ?_, ?_, ?_⟩
  · have h1 : pyStartsWith "task://all" "task://" = true := rfl
    have h2 : uriSegment "task://all" = "all" := rfl
    cases hf : b.fetch get_all_tasks_sql [] with
    | error e =>
      simp [handle_read_resource, h1, h2, db_get_all_tasks, db_execute_query, hf]
    | ok tasks =>
      simp [handle_read_resource, h1, h2, db_get_all_tasks, db_execute_query, hf]
  · have h1 : pyStartsWith "task://pending" "task://" = true := rfl
    have h2 : uriSegment "task://pending" = "pending" := rfl
    cases hf : b.fetch get_tasks_by_status_sql [.vStr "pending"] with
    | error e =>
      simp [handle_read_resource, h1, h2, db_get_tasks_by_status,
        db_execute_query, hf]
    | ok tasks =>
      simp [handle_read_resource, h1, h2, db_get_tasks_by_status,
        db_execute_query, hf]
  · intro h
    have := DbCall.fetch.inj h
    simp at this
  · intro uri h h2
    cases hf : b.fetch get_tasks_by_status_sql [.vStr (uriSegment uri)] with
    | error e =>
      simp [handle_read_resource, h, h2, db_get_tasks_by_status,
        db_execute_query, hf]
    | ok tasks =>
      simp [handle_read_resource, h, h2, db_get_tasks_by_status,
        db_execute_query, hf]
  · intro uri h hne
    simp [handle_read_resource, h, hne]

/-- Witness for C8 at `task://bogus` (unvalidated status passthrough) and
`schema://bogus` (unknown scheme). -/
theorem C8_resource_resolution_witness :
    (pyStartsWith "task://bogus" "task://" = true ∧
      uriSegment "task://bogus" ≠ "all" ∧
      pyStartsWith "schema://bogus" "task://" = false ∧
      "schema://bogus" ≠ "schema://database") ∧
      (handle_read_resource emptyB "task://bogus").2 =
        [.fetch get_tasks_by_status_sql [.vStr "bogus"]] ∧
      handle_read_resource emptyB "schema://bogus" =
        ("Error reading resource: " ++
          ("Unknown resource: " ++ "schema://bogus"), []) := by
  refine ⟨⟨rfl, by decide, rfl, by decide⟩, ?_, ?_⟩
  · have h := (C8_resource_resolution emptyB).2.2.2.1 "task://bogus" rfl
      (by decide)
    rw [h, show uriSegment "task://bogus" = "bogus" from rfl]
  · exact (C8_resource_resolution emptyB).2.2.2.2 "schema://bogus" rfl
      (by decide)

/-! ### C4: every fault is caught at the dispatcher boundary -/

/-- Against an always-raising collaborator, `list_tasks` dispatch yields an
`"Error: "`-wrapped Failure. -/
theorem errB_dispatch_list_tasks (e : String) (args : Args) :
    ∃ m, (handle_call_tool (errB e) "list_tasks" args).1 = "Error: " ++ m := by
  by_cases hT : pyTruthy (getKeyD args "status" .vNull)
  · exact ⟨e, by simp [handle_call_tool, handle_list_tasks, hT,
      db_get_tasks_by_status, db_execute_query, errB]⟩
  · exact ⟨e, by simp [handle_call_tool, handle_list_tasks, hT,
      db_get_all_tasks, db_execute_query, errB]⟩

/-- Against an always-raising collaborator, `get_task` dispatch yields an
`"Error: "`-wrapped Failure. -/
theorem errB_dispatch_get_task (e : String) (args : Args) :
    ∃ m, (handle_call_tool (errB e) "get_task" args).1 = "Error: " ++ m := by
  cases h : getItemKey args "task_id" with
  | error m => exact ⟨m, by simp [handle_call_tool, handle_get_task, h]⟩
  | ok tid => exact ⟨e, by simp [handle_call_tool, handle_get_task, h,
      db_get_task_by_id, db_execute_query, errB]⟩

/-- Against an always-raising collaborator, `create_task` dispatch yields an
`"Error: "`-wrapped Failure. -/
theorem errB_dispatch_create_task (e : String) (args : Args) :
    ∃ m, (handle_call_tool (errB e) "create_task" args).1 = "Error: " ++ m := by
  cases h : getItemKey args "title" with
  | error m => exact ⟨m, by simp [handle_call_tool, handle_create_task, h]⟩
  | ok title => exact ⟨e, by simp [handle_call_tool, handle_create_task, h,
      db_create_task, db_execute_query, errB]⟩

/-- Against an always-raising collaborator, `update_task_status` dispatch
yields an `"Error: "`-wrapped Failure. -/
theorem errB_dispatch_update_task_status (e : String) (args : Args) :
    ∃ m, (handle_call_tool (errB e) "update_task_status" args).1 =
      "Error: " ++ m := by
  cases h : getItemKey args "task_id" with
  | error m =>
    exact ⟨m, by simp [handle_call_tool, handle_update_task_status, h]⟩
  | ok tid =>
    cases h2 : getItemKey args "status" with
    | error m =>
      exact ⟨m, by simp [handle_call_tool, handle_update_task_status, h, h2]⟩
    | ok st =>
      exact ⟨e, by simp [handle_call_tool, handle_update_task_status, h, h2,
        db_update_task_status, db_execute_command, errB]⟩

/-- Against an always-raising collaborator, `delete_task` dispatch yields an
`"Error: "`-wrapped Failure. -/
theorem errB_dispatch_delete_task (e : String) (args : Args) :
    ∃ m, (handle_call_tool (errB e) "delete_task" args).1 = "Error: " ++ m := by
  cases h : getItemKey args "task_id" with
  | error m => exact ⟨m, by simp [handle_call_tool, handle_delete_task, h]⟩
  | ok tid => exact ⟨e, by simp [handle_call_tool, handle_delete_task, h,
      db_delete_task, db_execute_command, errB]⟩

/-- Against an always-raising collaborator, `add_task_comment` dispatch
yields an `"Error: "`-wrapped Failure. -/
theorem errB_dispatch_add_task_comment (e : String) (args : Args) :
    ∃ m, (handle_call_tool (errB e) "add_task_comment" args).1 =
      "Error: " ++ m := by
  cases h : getItemKey args "task_id" with
  | error m =>
    exact ⟨m, by simp [handle_call_tool, handle_add_task_comment, h]⟩
  | ok tid =>
    cases h2 : getItemKey args "comment" with
    | error m =>
      exact ⟨m, by simp [handle_call_tool, handle_add_task_comment, h, h2]⟩
    | ok c =>
      exact ⟨e, by simp [handle_call_tool, handle_add_task_comment, h, h2,
        db_add_task_comment, db_execute_query, errB]⟩

/-- Against an always-raising collaborator, `get_task_comments` dispatch
yields an `"Error: "`-wrapped Failure. -/
theorem errB_dispatch_get_task_comments (e : String) (args : Args) :
    ∃ m, (handle_call_tool (errB e) "get_task_comments" args).1 =
      "Error: " ++ m := by
  cases h : getItemKey args "task_id" with
  | error m =>
    exact ⟨m, by simp [handle_call_tool, handle_get_task_comments, h]⟩
  | ok tid => exact ⟨e, by simp [handle_call_tool, handle_get_task_comments, h,
      db_get_task_comments, db_execute_query, errB]⟩

/-- Against an always-raising collaborator, `list_categories` dispatch
yields an `"Error: "`-wrapped Failure. -/
theorem errB_dispatch_list_categories (e : String) (args : Args) :
    ∃ m, (handle_call_tool (errB e) "list_categories" args).1 =
      "Error: " ++ m :=
  ⟨e, by simp [handle_call_tool, handle_list_categories,
    db_get_all_categories, db_execute_query, errB]⟩

/-- Against an always-raising collaborator, `get_schema` dispatch yields an
`"Error: "`-wrapped Failure. -/
theorem errB_dispatch_get_schema (e : String) (args : Args) :
    ∃ m, (handle_call_tool (errB e) "get_schema" args).1 = "Error: " ++ m :=
  ⟨e, by simp [handle_call_tool, handle_get_schema,
    db_get_database_schema, db_execute_query, errB]⟩

/-- Against an always-raising collaborator, `execute_query` dispatch yields
either an `"Error: "`-prefixed text (argument fault or guard rejection) or
the operation-specific failure sentence `"Query execution failed: ..."`. -/
theorem errB_dispatch_execute_query (e : String) (args : Args) :
    pyStartsWith (handle_call_tool (errB e) "execute_query" args).1
      "Error: " = true ∨
    pyStartsWith (handle_call_tool (errB e) "execute_query" args).1
      "Query execution failed: " = true := by
  cases h : getItemKey args "query" with
  | error m =>
    left
    have hres : (handle_call_tool (errB e) "execute_query" args).1 =
        "Error: " ++ m := by
      simp [handle_call_tool, handle_execute_query, h]
    rw [hres]
    exact pyStartsWith_append _ _
  | ok qv =>
    cases hs : pyStripMethod qv with
    | error m =>
      left
      have hres : (handle_call_tool (errB e) "execute_query" args).1 =
          "Error: " ++ m := by
        simp [handle_call_tool, handle_execute_query, h, hs]
      rw [hres]
      exact pyStartsWith_append _ _
    | ok q =>
      cases hg : pyStartsWith (pyUpper q) "SELECT" with
      | false =>
        left
        have hres : (handle_call_tool (errB e) "execute_query" args).1 =
            "Error: Only SELECT queries are allowed for security reasons." := by
          simp [handle_call_tool, handle_execute_query, h, hs, hg]
        rw [hres]
        rfl
      | true =>
        right
        have hres : (handle_call_tool (errB e) "execute_query" args).1 =
            "Query execution failed: " ++ e := by
          simp [handle_call_tool, handle_execute_query, h, hs, hg,
            db_execute_query, errB]
        rw [hres]
        exact pyStartsWith_append _ _

/-- C4.  Every fault arising inside a dispatch — in particular any fault
raised by the storage collaborator, here one that raises on every call — is
caught at the Dispatcher boundary: the tool dispatch always yields a
response text beginning `"Error: "` or the operation-specific sentence
`"Query execution failed: "`, and the resource dispatch one beginning
`"Error reading resource: "`; nothing propagates (both dispatch functions
are total by construction, always yielding a well-formed result). -/
theorem C4_dispatcher_catches_faults (name : String) (args : Args)
    (e : String) :
    (pyStartsWith (handle_call_tool (errB e) name args).1 "Error: " = true ∨
      pyStartsWith (handle_call_tool (errB e) name args).1
        "Query execution failed: " = true) ∧
    ∀ uri : String,
      pyStartsWith (handle_read_resource (errB e) uri).1
        "Error reading resource: " = true := by
  constructor
  · by_cases h1 : name = "list_tasks"
    · subst h1
      obtain ⟨m, hm⟩ := errB_dispatch_list_tasks e args
      rw [hm]; exact Or.inl (pyStartsWith_append _ _)
    by_cases h2 : name = "get_task"
    · subst h2
      obtain ⟨m, hm⟩ := errB_dispatch_get_task e args
      rw [hm]; exact Or.inl (pyStartsWith_append _ _)
    by_cases h3 : name = "create_task"
    · subst h3
      obtain ⟨m, hm⟩ := errB_dispatch_create_task e args
      rw [hm]; exact Or.inl (pyStartsWith_append _ _)
    by_cases h4 : name = "update_task_status"
    · subst h4
      obtain ⟨m, hm⟩ := errB_dispatch_update_task_status e args
      rw [hm]; exact Or.inl (pyStartsWith_append _ _)
    by_cases h5 : name = "delete_task"
    · subst h5
      obtain ⟨m, hm⟩ := errB_dispatch_delete_task e args
      rw [hm]; exact Or.inl (pyStartsWith_append _ _)
    by_cases h6 : name = "add_task_comment"
    · subst h6
      obtain ⟨m, hm⟩ := errB_dispatch_add_task_comment e args
      rw [hm]; exact Or.inl (pyStartsWith_append _ _)
    by_cases h7 : name = "get_task_comments"
    · subst h7
      obtain ⟨m, hm⟩ := errB_dispatch_get_task_comments e args
      rw [hm]; exact Or.inl (pyStartsWith_append _ _)
    by_cases h8 : name = "list_categories"
    · subst h8
      obtain ⟨m, hm⟩ := errB_dispatch_list_categories e args
      rw [hm]; exact Or.inl (pyStartsWith_append _ _)
    by_cases h9 : name = "execute_query"
    · subst h9
      exact errB_dispatch_execute_query e args
    by_cases h10 : name = "get_schema"
    · subst h10
      obtain ⟨m, hm⟩ := errB_dispatch_get_schema e args
      rw [hm]; exact Or.inl (pyStartsWith_append _ _)
    · have hres : (handle_call_tool (errB e) name args).1 =
          "Error: " ++ ("Unknown tool: " ++ name) := by
        unfold handle_call_tool
        rw [if_neg h1, if_neg h2, if_neg h3, if_neg h4, if_neg h5, if_neg h6,
          if_neg h7, if_neg h8, if_neg h9, if_neg h10]
      rw [hres]
      exact Or.inl (pyStartsWith_append _ _)
  · intro uri
    cases hu : pyStartsWith uri "task://" with
    | true =>
      by_cases ha : uriSegment uri = "all"
      · have hres : (handle_read_resource (errB e) uri).1 =
            "Error reading resource: " ++ e := by
          simp [handle_read_resource, hu, ha, db_get_all_tasks,
            db_execute_query, errB]
        rw [hres]
        exact pyStartsWith_append _ _
      · have hres : (handle_read_resource (errB e) uri).1 =
            "Error reading resource: " ++ e := by
          simp [handle_read_resource, hu, ha, db_get_tasks_by_status,
            db_execute_query, errB]
        rw [hres]
        exact pyStartsWith_append _ _
    | false =>
      by_cases hs : uri = "schema://database"
      · subst hs
        have hres : (handle_read_resource (errB e) "schema://database").1 =
            "Error reading resource: " ++ e := by
          simp [handle_read_resource, hu, db_get_database_schema,
            db_execute_query, errB]
        rw [hres]
        exact pyStartsWith_append _ _
      · have hres : (handle_read_resource (errB e) uri).1 =
            "Error reading resource: " ++ ("Unknown resource: " ++ uri) := by
          simp [handle_read_resource, hu, hs]
        rw [hres]
        exact pyStartsWith_append _ _

/-! ### Round-trip lemmas for the schema JSON codec -/

/-- Leading whitespace is skipped through an append. -/
theorem skipWs_ws_append (ws l : List Char)
    (h : ∀ x ∈ ws, isWsChar x = true) : skipWs (ws ++ l) = skipWs l := by
  induction ws with
  | nil => rfl
  | cons c t ih =>
    have hc : isWsChar c = true := h c (by simp)
    simp only [List.cons_append, skipWs, hc, if_pos]
    exact ih fun x hx => h x (by simp [hx])

/-- Indentation is whitespace. -/
theorem indL_ws (k : Nat) : ∀ x ∈ indL k, isWsChar x = true := by
  intro x hx
  have := List.eq_of_mem_replicate hx
  subst this
  rfl

/-- `skipWs` stops at a non-whitespace head. -/
theorem skipWs_stop (c : Char) (l : List Char) (h : isWsChar c = false) :
    skipWs (c :: l) = c :: l := by
  simp [skipWs, h]

/-- `skipWs` passes one whitespace character. -/
theorem skipWs_cons_ws (c : Char) (l : List Char) (h : isWsChar c = true) :
    skipWs (c :: l) = skipWs l := by
  simp [skipWs, h]

/-- `skipWs` stops at a string literal. -/
theorem skipWs_qstrL (s : String) (l : List Char) :
    skipWs (qstrL s ++ l) = qstrL s ++ l := by
  simp only [qstrL, List.cons_append]
  exact skipWs_stop _ _ rfl

/-- `hexVal` inverts `hexDig` below 16. -/
theorem hexVal_hexDig (n : Nat) (h : n < 16) : hexVal (hexDig n) = some n := by
  interval_cases n <;> rfl

/-- Unescaping after one escaped character prepends that character. -/
theorem unescChars_escChar (c : Char) (tail : List Char) :
    unescChars (escChar c ++ tail) =
      match unescChars tail with
      | some (cs, r) => some (c :: cs, r)
      | none => none := by
  rw [escChar]
  by_cases h1 : c = '"'
  · subst h1; simp [unescChars, unescSimple]
  by_cases h2 : c = '\\'
  · subst h2; simp [h1, unescChars, unescSimple]
  by_cases h3 : c = '\n'
  · subst h3; simp [h1, h2, unescChars, unescSimple]
  by_cases h4 : c = '\t'
  · subst h4; simp [h1, h2, h3, unescChars, unescSimple]
  by_cases h5 : c = '\r'
  · subst h5; simp [h1, h2, h3, h4, unescChars, unescSimple]
  by_cases h6 : c = '\x08'
  · subst h6; simp [h1, h2, h3, h4, h5, unescChars, unescSimple]
  by_cases h7 : c = '\x0c'
  · subst h7; simp [h1, h2, h3, h4, h5, h6, unescChars, unescSimple]
  by_cases h8 : c.toNat < 0x20
  · simp only [h1, h2, h3, h4, h5, h6, h7, h8, if_true, if_false,
      if_neg, if_pos, List.cons_append, List.nil_append]
    have hdiv : c.toNat / 16 < 16 := by omega
    have hmod : c.toNat % 16 < 16 := Nat.mod_lt _ (by omega)
    simp only [unescChars, hexVal_hexDig _ hdiv, hexVal_hexDig _ hmod,
      show hexVal '0' = some 0 from rfl]
    have harith : ((0 * 16 + 0) * 16 + c.toNat / 16) * 16 + c.toNat % 16 =
        c.toNat := by omega
    rw [harith, Char.ofNat_toNat]
  · simp only [h1, h2, h3, h4, h5, h6, h7, h8, if_true, if_false,
      if_neg, if_pos, List.cons_append, List.nil_append]
    rw [unescChars.eq_def]
    simp [h1, h2]

/-- Unescaping an escaped character run recovers it up to the closing
quote. -/
theorem unescChars_escList (s rest : List Char) :
    unescChars (escList s ++ '"' :: rest) = some (s, rest) := by
  induction s with
  | nil => rfl
  | cons c cs ih =>
    rw [escList, List.append_assoc, unescChars_escChar, ih]

/-- The string-literal codec round-trip. -/
theorem parseQStr_qstrL (s : String) (rest : List Char) :
    parseQStr (qstrL s ++ rest) = some (s, rest) := by
  obtain ⟨l⟩ := s
  simp only [qstrL, List.cons_append, parseQStr, List.append_assoc,
    List.cons_append, List.nil_append]
  rw [unescChars_escList]

/-- `skipWs` passes a newline. -/
theorem skipWs_nl (l : List Char) : skipWs ('\n' :: l) = skipWs l := rfl

/-- `skipWs` passes a space. -/
theorem skipWs_sp (l : List Char) : skipWs (' ' :: l) = skipWs l := rfl

/-- `skipWs` skips a whole indentation run. -/
theorem skipWs_indL (k : Nat) (l : List Char) :
    skipWs (indL k ++ l) = skipWs l :=
  skipWs_ws_append _ _ (indL_ws k)

/-- `skipWs` stops at a colon. -/
theorem skipWs_colon (l : List Char) : skipWs (':' :: l) = ':' :: l := rfl

/-- `skipWs` stops at a comma. -/
theorem skipWs_comma (l : List Char) : skipWs (',' :: l) = ',' :: l := rfl

/-- `skipWs` stops at an opening brace. -/
theorem skipWs_lbrace (l : List Char) : skipWs ('\x7b' :: l) = '\x7b' :: l := rfl

/-- `skipWs` stops at a closing brace. -/
theorem skipWs_rbrace (l : List Char) : skipWs ('\x7d' :: l) = '\x7d' :: l := rfl

/-- `skipWs` stops at an opening bracket. -/
theorem skipWs_lbrack (l : List Char) : skipWs ('[' :: l) = '[' :: l := rfl

/-- `skipWs` stops at a closing bracket. -/
theorem skipWs_rbrack (l : List Char) : skipWs (']' :: l) = ']' :: l := rfl

/-- `skipWs` stops at the head of `true`. -/
theorem skipWs_t (l : List Char) : skipWs ('t' :: l) = 't' :: l := rfl

/-- `skipWs` stops at the head of `false`. -/
theorem skipWs_f (l : List Char) : skipWs ('f' :: l) = 'f' :: l := rfl

/-- `skipWs` stops at the head of `null`. -/
theorem skipWs_n (l : List Char) : skipWs ('n' :: l) = 'n' :: l := rfl

/-- Parsing a rendered `true`. -/
theorem parseBoolLit_true (l : List Char) :
    parseBoolLit ('t' :: 'r' :: 'u' :: 'e' :: l) = some (true, l) := rfl

/-- Parsing a rendered `false`. -/
theorem parseBoolLit_false (l : List Char) :
    parseBoolLit ('f' :: 'a' :: 'l' :: 's' :: 'e' :: l) = some (false, l) := rfl

/-- Parsing a rendered `null` default. -/
theorem parseDefaultVal_null (l : List Char) :
    parseDefaultVal ('n' :: 'u' :: 'l' :: 'l' :: l) = some (none, l) := rfl

/-- A Bool-conditioned `if` at `false`. -/
theorem ite_false_eq_true {α : Type} (a b : α) :
    (if false = true then a else b) = b := rfl

/-- A Bool-conditioned `if` at `true`. -/
theorem ite_true_eq_true {α : Type} (a b : α) :
    (if true = true then a else b) = a := rfl

/-- Parsing a rendered string default. -/
theorem parseDefaultVal_str (d : String) (l : List Char) :
    parseDefaultVal (qstrL d ++ l) = some (some d, l) := by
  simp only [qstrL, List.cons_append, parseDefaultVal, parseQStr,
    List.append_assoc, List.nil_append]
  rw [unescChars_escList]

/-- Parsing a printed column object starting at its brace recovers it. -/
theorem parseColObjAt_print (lvl : Nat) (c : ColumnDesc) (rest : List Char) :
    parseColObjAt (dumpsL lvl (colValue c) ++ rest) = some (c, rest) := by
  obtain ⟨nm, ty, nb, dv⟩ := c
  cases nb <;> cases dv <;>
    simp only [colValue, colRow, dumpsL, objTailL, List.append_assoc,
      List.cons_append, List.nil_append, parseColObjAt, skipWs_nl, skipWs_sp,
      skipWs_indL, skipWs_qstrL, skipWs_colon, skipWs_comma, skipWs_rbrace,
      skipWs_t, skipWs_f, skipWs_n, parseQStr_qstrL, parseBoolLit_true,
      parseBoolLit_false, parseDefaultVal_null, parseDefaultVal_str,
      ite_false_eq_true, ite_true_eq_true, reduceIte]

/-- Parsing a printed column object after leading whitespace. -/
theorem parseColObj_print (lvl : Nat) (c : ColumnDesc) (ws rest : List Char)
    (hws : ∀ x ∈ ws, isWsChar x = true) :
    parseColObj (ws ++ (dumpsL lvl (colValue c) ++ rest)) = some (c, rest) := by
  rw [parseColObj, skipWs_ws_append _ _ hws]
  have hhead : skipWs (dumpsL lvl (colValue c) ++ rest) =
      dumpsL lvl (colValue c) ++ rest := by
    obtain ⟨nm, ty, nb, dv⟩ := c
    simp only [colValue, colRow, dumpsL, List.cons_append]
    exact skipWs_lbrace _
  rw [hhead, parseColObjAt_print]

/-- Parsing the printed items of a nonempty column array recovers them and
stops after the closing bracket. -/
theorem parseColsAux_print (lvl lvl2 : Nat) (rest : List Char) :
    ∀ (cs : List ColumnDesc) (c : ColumnDesc) (ws : List Char),
      (∀ x ∈ ws, isWsChar x = true) → ∀ fuel : Nat, cs.length < fuel →
    parseColsAux fuel (ws ++ (dumpsL lvl (colValue c) ++
        (arrTailL lvl (cs.map colValue) ++
          ('\n' :: (indL lvl2 ++ (']' :: rest)))))) = some (c :: cs, rest) := by
  intro cs
  induction cs with
  | nil =>
    intro c ws hws fuel hf
    cases fuel with
    | zero => omega
    | succ f =>
      simp only [List.map_nil, arrTailL, List.nil_append, parseColsAux]
      rw [parseColObj_print lvl c ws _ hws]
      simp only [skipWs_nl, skipWs_indL, skipWs_rbrack]
  | cons c2 cs' ih =>
    intro c ws hws fuel hf
    cases fuel with
    | zero => omega
    | succ f =>
      simp only [List.map_cons, arrTailL, parseColsAux, List.append_assoc,
        List.cons_append]
      rw [parseColObj_print lvl c ws _ hws]
      simp only [skipWs_comma]
      have hih := ih c2 ('\n' :: indL lvl) (by
        intro x hx
        rcases List.mem_cons.mp hx with h | h
        · subst h; rfl
        · exact indL_ws _ _ h) f (by simpa using Nat.lt_of_succ_lt_succ hf)
      simp only [List.cons_append, List.append_assoc] at hih
      rw [hih]

/-- Parsing a printed column array after leading whitespace. -/
theorem parseColList_print (fuel lvl : Nat) (cols : List ColumnDesc)
    (ws rest : List Char) (hws : ∀ x ∈ ws, isWsChar x = true)
    (hf : cols.length ≤ fuel) :
    parseColList fuel
      (ws ++ (dumpsL lvl (.vArr (cols.map colValue)) ++ rest)) =
      some (cols, rest) := by
  cases cols with
  | nil =>
    have hsq : dumpsL lvl (.vArr (([] : List ColumnDesc).map colValue)) =
        '[' :: ']' :: [] := rfl
    rw [hsq]
    simp only [List.cons_append, List.nil_append, parseColList,
      skipWs_ws_append _ _ hws, skipWs_lbrack, skipWs_rbrack]
  | cons c cs =>
    have haux := parseColsAux_print (lvl + 1) lvl rest cs c
      ('\n' :: indL (lvl + 1)) (by
        intro x hx
        rcases List.mem_cons.mp hx with h | h
        · subst h; rfl
        · exact indL_ws _ _ h) fuel (by simpa using hf)
    simp only [List.map_cons, dumpsL, List.append_assoc, List.cons_append,
      List.nil_append] at haux
    simp only [List.map_cons, dumpsL, List.append_assoc, List.cons_append,
      List.nil_append, parseColList, skipWs_ws_append _ _ hws, skipWs_lbrack,
      skipWs_nl, skipWs_indL, skipWs_lbrace]
    rw [haux]
    rfl

/-- A single space is whitespace. -/
theorem space_ws : ∀ x ∈ [' '], isWsChar x = true := by
  intro x hx
  rcases List.mem_singleton.mp hx with rfl
  rfl

/-- A newline followed by indentation is whitespace. -/
theorem nl_indL_ws (k : Nat) : ∀ x ∈ '\n' :: indL k, isWsChar x = true := by
  intro x hx
  rcases List.mem_cons.mp hx with h | h
  · subst h; rfl
  · exact indL_ws _ _ h

/-- Parsing the printed members of the top-level schema object recovers
them and stops after the closing brace. -/
theorem parseTablesAux_print (s : Schema) :
    ∀ (k : String) (cols : List ColumnDesc) (ws rest : List Char),
      (∀ x ∈ ws, isWsChar x = true) → ∀ fuel : Nat,
      ((k, cols) :: s).length +
        (((k, cols) :: s).map fun p => p.2.length).sum ≤ fuel →
      parseTablesAux fuel (ws ++ (qstrL k ++ (':' :: ' ' ::
        (dumpsL 1 (.vArr (cols.map colValue)) ++
          (objTailL 1 (s.map fun p => (p.1, Value.vArr (p.2.map colValue))) ++
            ('\n' :: (indL 0 ++ ('\x7d' :: rest)))))))) =
        some ((k, cols) :: s, rest) := by
  induction s with
  | nil =>
    intro k cols ws rest hws fuel hf
    cases fuel with
    | zero => simp at hf
    | succ f =>
      have hcl := parseColList_print f 1 cols [' ']
        ('\n' :: (indL 0 ++ ('\x7d' :: rest))) space_ws (by
          simp only [List.length_cons, List.map_cons, List.sum_cons,
            List.length_nil, List.map_nil, List.sum_nil] at hf
          omega)
      simp only [List.cons_append, List.nil_append, List.append_assoc] at hcl
      simp only [List.map_nil, objTailL, List.nil_append, List.append_assoc,
        List.cons_append, parseTablesAux, skipWs_ws_append _ _ hws,
        skipWs_qstrL, parseQStr_qstrL, skipWs_colon, hcl, skipWs_nl,
        skipWs_indL, skipWs_rbrace]
  | cons p t ih =>
    intro k cols ws rest hws fuel hf
    cases fuel with
    | zero => simp at hf
    | succ f =>
      obtain ⟨k2, cols2⟩ := p
      have hih := ih k2 cols2 ('\n' :: indL 1) rest (nl_indL_ws 1) f (by
        simp only [List.length_cons, List.map_cons, List.sum_cons] at hf ⊢
        omega)
      simp only [List.cons_append, List.append_assoc] at hih
      have hcl := parseColList_print f 1 cols [' ']
        (',' :: '\n' :: (indL 1 ++ (qstrL k2 ++ (':' :: ' ' ::
          (dumpsL 1 (.vArr (cols2.map colValue)) ++
            (objTailL 1 (t.map fun p => (p.1, Value.vArr (p.2.map colValue))) ++
              ('\n' :: (indL 0 ++ ('\x7d' :: rest))))))))) space_ws (by
          simp only [List.length_cons, List.map_cons, List.sum_cons] at hf
          omega)
      simp only [List.cons_append, List.nil_append, List.append_assoc] at hcl
      simp only [List.map_cons, objTailL, List.nil_append, List.append_assoc,
        List.cons_append, parseTablesAux, skipWs_ws_append _ _ hws,
        skipWs_qstrL, parseQStr_qstrL, skipWs_colon, hcl, skipWs_comma, hih]

/-- Parsing a printed schema object recovers the schema mapping. -/
theorem parseSchemaTop_print (s : Schema) (rest : List Char) (fuel : Nat)
    (hf : s.length + (s.map fun p => p.2.length).sum ≤ fuel) :
    parseSchemaTop fuel (dumpsL 0 (schemaValue s) ++ rest) = some (s, rest) := by
  cases s with
  | nil =>
    have h0 : dumpsL 0 (schemaValue []) = '\x7b' :: '\x7d' :: [] := rfl
    rw [h0]
    simp only [List.cons_append, List.nil_append, parseSchemaTop,
      skipWs_lbrace, skipWs_rbrace]
  | cons p t =>
    obtain ⟨k, cols⟩ := p
    have htab := parseTablesAux_print t k cols ('\n' :: indL 1) rest
      (nl_indL_ws 1) fuel hf
    simp only [List.cons_append, List.append_assoc] at htab
    simp only [schemaValue, List.map_cons, dumpsL, List.append_assoc,
      List.cons_append, List.nil_append, parseSchemaTop, skipWs_lbrace,
      skipWs_nl, skipWs_indL, skipWs_qstrL]
    rw [htab]
    simp only [qstrL, List.cons_append]
    rfl

/-- The printed array tail is at least as long as its item count. -/
theorem arrTailL_length_ge (lvl : Nat) (cs : List ColumnDesc) :
    cs.length ≤ (arrTailL lvl (cs.map colValue)).length := by
  induction cs with
  | nil => simp [arrTailL]
  | cons c cs ih =>
    simp only [List.map_cons, arrTailL, List.length_cons, List.length_append]
    omega

/-- The printed column array is at least as long as its item count. -/
theorem dumpsArr_length_ge (lvl : Nat) (cols : List ColumnDesc) :
    cols.length ≤ (dumpsL lvl (.vArr (cols.map colValue))).length := by
  cases cols with
  | nil => exact Nat.zero_le _
  | cons c cs =>
    have h := arrTailL_length_ge (lvl + 1) cs
    simp only [List.map_cons, dumpsL, List.length_cons, List.length_append]
    omega

/-- The printed object tail is at least as long as its table and column
count. -/
theorem objTail_length_ge (t : Schema) :
    t.length + (t.map fun p => p.2.length).sum ≤
      (objTailL 1 (t.map fun p =>
        (p.1, Value.vArr (p.2.map colValue)))).length := by
  induction t with
  | nil => simp [objTailL]
  | cons p t ih =>
    obtain ⟨k, cols⟩ := p
    have h1 := dumpsArr_length_ge 1 cols
    simp only [List.map_cons, objTailL, List.length_cons, List.length_append,
      List.sum_cons]
    omega

/-- The printed schema is at least as long as its table and column count. -/
theorem schema_print_length_ge (s : Schema) :
    s.length + (s.map fun p => p.2.length).sum ≤
      (dumpsL 0 (schemaValue s)).length := by
  cases s with
  | nil => exact Nat.zero_le _
  | cons p t =>
    obtain ⟨k, cols⟩ := p
    have h1 := dumpsArr_length_ge 1 cols
    have h2 := objTail_length_ge t
    simp only [schemaValue, List.map_cons, dumpsL, List.length_cons,
      List.length_append, List.sum_cons, Nat.zero_add] at h1 h2 ⊢
    omega

/-! ### C3: the structured schema rendering loses no information -/

/-- C3.  For every schema mapping produced by the storage layer, rendering
it as the structured JSON text of the `schema://database` resource
(`json.dumps(schema, indent=2)`) and re-parsing that text yields a mapping
from table name to the ordered list of column descriptors equal to the
renderer's input; moreover the coercion of the grouped storage rows into
the rendered JSON value is lossless in the same sense. -/
theorem C3_schema_json_round_trip (s : Schema) :
    parseSchemaJson (renderSchemaJson s) = some s ∧
    schemaJsonValue (schemaVRows s) = .ok (schemaValue s) := by
  constructor
  · rw [renderSchemaJson, parseSchemaJson]
    have hdata : (dumpsV 0 (schemaValue s)).data = dumpsL 0 (schemaValue s) :=
      rfl
    rw [hdata]
    have hlen := schema_print_length_ge s
    have htop := parseSchemaTop_print s []
      ((dumpsL 0 (schemaValue s)).length + 1) (by omega)
    rw [List.append_nil] at htop
    rw [htop]
    rfl
  · induction s with
    | nil => rfl
    | cons p t ih =>
      obtain ⟨k, cols⟩ := p
      simp only [schemaVRows, List.map_cons] at ih ⊢
      simp only [schemaJsonValue, jsonKey]
      rw [ih]
      simp only [schemaValue, List.map_cons, List.map_map]
      rfl
